import Mathlib

/-!
# Yandex online locator: adaptive scheduler and request life cycle

A shallow embedding of `src/plugin/yandexonlinelocator.cpp`.

* The object `YandexOnlineLocator`, together with the two function-local statics of
  `buildLocationQuery` (`waitForWlanInfo`, `backOffFactor`), is the record `Locator`;
  every member function is a pure function from a `Locator` and the values the
  function reads from outside (clock, key file, network reply) to the new `Locator`
  and what the function hands out (return value, emitted signals, posted document).
* Instants are milliseconds since the epoch (`Int`), as `QDateTime::msecsTo` and
  `QDateTime::currentMSecsSinceEpoch` count them.
* Two routines of the Qt library are not modelled: `QJsonDocument::fromJson` and
  `QString::toDouble`.  A reply carries what they make of its bytes and of its strings
  (`ReplyData`), so that what is proved of a reply holds whatever they return.
* `minutesPerQuery` is a `double` in the source.  It is only ever compared with the
  constants 6 and 4; between two different outcomes of the exact comparison the
  quotient moves by at least 1/600000, far above the rounding error of the two
  divisions, so the exact rational is used here.
-/

namespace YandexOnlineLocator

/-! ## Qt values -/

/-- Variant value: the kinds of `QVariant` / `QJsonValue` that occur in the request
payloads and in the parsed responses.  `QJsonValue::toVariant` keeps the shape of a
value, so one type serves for both; `invalid` is the default-constructed `QVariant`
(what a map returns for an absent key, and what an undefined JSON value converts to). -/
inductive QVariant where
  | invalid
  | null
  | bool (b : Bool)
  | int (n : Int)
  | double (d : ℚ)
  | string (s : String)
  | list (xs : List QVariant)
  | map (m : List (String × QVariant))

/-- List of variants, `QVariantList`. -/
abbrev QVariantList := List QVariant

/-- String-keyed variant map, `QVariantMap` (`QMap<QString, QVariant>`): the items in
ascending key order. -/
abbrev QVariantMap := List (String × QVariant)

/-- Order of keys, `operator<` of `QString`: lexicographic by character code. -/
def keyLess (a b : String) : Bool :=
  decide (a.data < b.data)

/-- Assignment `m[k] = v`: replaces the value of an existing key, otherwise adds the
item at its place in key order. -/
def mapInsert : QVariantMap → String → QVariant → QVariantMap
  | [], k, v => [(k, v)]
  | (k', v') :: rest, k, v =>
    if keyLess k k' then (k, v) :: (k', v') :: rest
    else if keyLess k' k then (k', v') :: mapInsert rest k v
    else (k, v) :: rest

/-- Qt's `QMap::insertMulti`: adds the item in front of the items whose key is not
smaller, also when the key is already there. -/
def mapInsertMulti : QVariantMap → String → QVariant → QVariantMap
  | [], k, v => [(k, v)]
  | (k', v') :: rest, k, v =>
    if keyLess k' k then (k', v') :: mapInsertMulti rest k v
    else (k, v) :: (k', v') :: rest

/-- Qt's `QMap::unite`: walks `other` from its last item to its first and adds each
with `insertMulti`. -/
def mapUnite (m other : QVariantMap) : QVariantMap :=
  other.foldr (fun kv acc => mapInsertMulti acc kv.1 kv.2) m

/-- Qt's `QMap::value(key)`: the value of the first item with the key, a
default-constructed variant when there is none. -/
def mapValue (m : QVariantMap) (k : String) : QVariant :=
  match m.find? (fun kv => kv.1 == k) with
  | some kv => kv.2
  | none => QVariant.invalid

/-- Qt's `QMap::contains(key)`. -/
def mapContains (m : QVariantMap) (k : String) : Bool :=
  m.any (fun kv => kv.1 == k)

/-- Rounding of `qRound64`: to the nearest integer, halves away from zero. -/
def qRound64 (d : ℚ) : Int :=
  if 0 ≤ d then Rat.floor (d + 1 / 2) else -(Rat.floor (-d + 1 / 2))

/-- Value of a run of decimal digits, `none` when a character is not a digit. -/
def digitsValue (cs : List Char) : Option Nat :=
  cs.foldl (fun acc c =>
    match acc with
    | some n => if c.isDigit then some (n * 10 + (c.toNat - 48)) else none
    | none => none) (some 0)

/-- Unsigned decimal numeral: a non-empty run of digits. -/
def parseUnsigned (s : String) : Option Nat :=
  if s.data.isEmpty then none else digitsValue s.data

/-- Value of a `double`: a finite number, or one of the values that are not
numbers of their own (the string conversion returns them for "inf" and "nan"). -/
inductive QDouble where
  | finite (value : ℚ)
  | infinity (negative : Bool)
  | nan
  deriving DecidableEq

namespace QVariant

/-- Qt's `QVariant::toList`: the list held, empty for every other kind. -/
def toList : QVariant → QVariantList
  | list xs => xs
  | _ => []

/-- Qt's `QVariant::toMap` (and `QJsonValue::toObject`): the map held, empty for
every other kind. -/
def toMap : QVariant → QVariantMap
  | map m => m
  | _ => []

/-- Qt's `QVariant::toDouble(&ok)`: `some` of the number when `ok` is set, `none`
when it is cleared (the number returned is then 0 and is not used).  A string is
converted by `QString::toDouble`, a routine of the library that is not modelled
here: `stringToDouble` is what that routine makes of a string, `some` of the number
when it sets `ok`. -/
def toDouble (stringToDouble : String → Option QDouble) : QVariant → Option QDouble
  | double d => some (QDouble.finite d)
  | int n => some (QDouble.finite (n : ℚ))
  | bool b => some (QDouble.finite (if b then 1 else 0))
  | string s => stringToDouble s
  | _ => none

/-- Qt's `QVariant::value<quint32>()`: the number held, converted to 32 bits
unsigned; 0 when the value does not convert. -/
def toUInt : QVariant → Nat
  | int n => (n % 4294967296).toNat
  | bool b => if b then 1 else 0
  | double d => (qRound64 d % 4294967296).toNat
  | string s =>
    match parseUnsigned s with
    | some n => if n < 18446744073709551616 then n % 4294967296 else 0
    | none => 0
  | _ => 0

/-- Qt's `QJsonValue::toInt()`: the number when the value is a number with an
integral value in the range of `int`, the default 0 otherwise. -/
def jsonToInt : QVariant → Int
  | double d =>
    if d.den = 1 ∧ -2147483648 ≤ d.num ∧ d.num ≤ 2147483647 then d.num else 0
  | int n => if -2147483648 ≤ n ∧ n ≤ 2147483647 then n else 0
  | _ => 0

end QVariant

/-- Date-time value `QDateTime`: the null value `QDateTime()` or a UTC instant. -/
inductive QDateTime where
  | null
  | utc (msecs : Int)
  deriving DecidableEq

namespace QDateTime

/-- Qt's `QDateTime::isNull`. -/
def isNull : QDateTime → Bool
  | null => true
  | utc _ => false

/-- Qt's `QDateTime::isValid`. -/
def isValid : QDateTime → Bool
  | null => false
  | utc _ => true

/-- Qt's `QDateTime::msecsTo`: milliseconds from this instant to the other, 0 when
either is not valid. -/
def msecsTo : QDateTime → QDateTime → Int
  | utc a, utc b => b - a
  | _, _ => 0

end QDateTime

/-! ## Radio observations -/

/-- Modelled from the spec: radio type of a cell observation (gsm, wcdma, lte,
unknown); the `MLSDB_CELL_TYPE_*` constants are declared in a header that is not among
the source files.  `umts` is the type sent as "wcdma". -/
inductive CellType where
  | lte
  | gsm
  | umts
  | other
  deriving DecidableEq

/-- Modelled from the spec: unique cell identifier (radio type, cell id, location
area code, mobile country code, mobile network code); its class is declared in a
header that is not among the source files.  The accessors return unsigned numbers. -/
structure UniqueCellId where
  cellType : CellType
  cellId : Nat
  locationCode : Nat
  mcc : Nat
  mnc : Nat
  deriving DecidableEq

/-- Modelled from the spec: cell observation `YandexProvider::CellPositioningData`
(unique cell id and signal strength); declared in a header that is not among the
source files. -/
structure CellPositioningData where
  uniqueCellId : UniqueCellId
  signalStrength : Int
  deriving DecidableEq

/-- Wireless service as `wlanAccessPointFields` reads it (`NetworkService` of the
connection manager library): hidden flag, name, hardware address, strength. -/
structure NetworkService where
  hidden : Bool
  name : String
  bssid : String
  strength : Nat
  deriving DecidableEq

/-- SIM manager as `globalFields` reads it (`QOfonoSimManager`). -/
structure SimManager where
  isValid : Bool
  serviceProviderName : String
  mobileCountryCode : String
  mobileNetworkCode : String
  deriving DecidableEq

/-- Text of the persisted key-failure time, as far as `findLocation` can tell texts
apart: empty (also when the setting is unset), non-empty but rejected by
`QDateTime::fromString(_, Qt::ISODate)`, or read by it as a UTC instant. -/
inductive TimeString where
  | empty
  | unreadable
  | iso (msecs : Int)
  deriving DecidableEq

namespace TimeString

/-- Qt's `QString::isEmpty`. -/
def isEmpty : TimeString → Bool
  | empty => true
  | _ => false

/-- Qt's `QDateTime::fromString(text, Qt::ISODate)`. -/
def toDateTime : TimeString → QDateTime
  | iso ms => QDateTime.utc ms
  | _ => QDateTime.null

end TimeString

/-- Qt's `QDateTime::toString(Qt::ISODate)` of a UTC instant: the text
`yyyy-MM-ddTHH:mm:ssZ`.  The format has no milliseconds, so the text reads back as
the instant cut to whole seconds. -/
def toStringISODate (msecs : Int) : TimeString :=
  TimeString.iso (msecs / 1000 * 1000)

/-- Network reply held in `m_currentReply`: the identity of the reply object and its
dynamic property "timedOut". -/
structure Reply where
  id : Nat
  timedOut : Bool
  deriving DecidableEq

/-! ## The locator object -/

/-- State of a `YandexOnlineLocator`: its members and the function-local statics of
`buildLocationQuery`. -/
structure Locator where
  /-- Static `waitForWlanInfo` of `buildLocationQuery`. -/
  waitForWlanInfo : Bool
  /-- Static `backOffFactor` of `buildLocationQuery` (`quint32`). -/
  backOffFactor : Nat
  /-- Member `m_simManager`, `none` for the null pointer. -/
  simManager : Option SimManager
  /-- Member `m_currentReply`, `none` for the null pointer. -/
  currentReply : Option Reply
  /-- Whether `m_replyTimer` is running. -/
  replyTimerActive : Bool
  fallbacksLacf : Bool
  fallbacksIpf : Bool
  wlanDataAllowed : Bool
  wlanServices : List NetworkService
  adaptiveInterval : Int
  queryTimestamps : List Int
  /-- Persisted setting behind `m_keyFailureTime`. -/
  keyFailureTime : TimeString
  yandexKey : String

/-- Constant `REQUEST_REPLY_TIMEOUT_INTERVAL`. -/
def REQUEST_REPLY_TIMEOUT_INTERVAL : Nat := 10000

/-- Constant `REQUEST_TIMESTAMPS_TO_TRACK`. -/
def REQUEST_TIMESTAMPS_TO_TRACK : Nat := 10

/-- Constant `REQUEST_BASE_ADAPTIVE_INTERVAL`. -/
def REQUEST_BASE_ADAPTIVE_INTERVAL : Nat := 60000

/-- Constant `REQUEST_MODIFY_ADAPTIVE_INTERVAL`. -/
def REQUEST_MODIFY_ADAPTIVE_INTERVAL : Nat := 10000

/-- State left by the constructor (and by the initialisers of the statics): the
fallback flags are read from the configuration file, the key-failure time is whatever
the settings store holds from earlier runs. -/
def initial (fallbacksLacf fallbacksIpf : Bool) (keyFailureTime : TimeString) : Locator :=
  { waitForWlanInfo := true
    backOffFactor := 8
    simManager := none
    currentReply := none
    replyTimerActive := false
    fallbacksLacf := fallbacksLacf
    fallbacksIpf := fallbacksIpf
    wlanDataAllowed := true
    wlanServices := []
    adaptiveInterval := REQUEST_BASE_ADAPTIVE_INTERVAL
    queryTimestamps := []
    keyFailureTime := keyFailureTime
    yandexKey := "" }

/-! ## Request fields -/

/-- Body of the loop of `cellTowerFields` for one cell: the tower map that is
appended, or `none` where the loop continues without appending. -/
def cellTowerMap (cell : CellPositioningData) : Option QVariantMap :=
  let m0 : QVariantMap := []
  let m1 : QVariantMap :=
    match cell.uniqueCellId.cellType with
    | CellType.lte => mapInsert m0 "radioType" (QVariant.string "lte")
    | CellType.gsm => mapInsert m0 "radioType" (QVariant.string "gsm")
    | CellType.umts => mapInsert m0 "radioType" (QVariant.string "wcdma")
    | CellType.other => m0
  let m2 : QVariantMap :=
    if cell.uniqueCellId.mcc ≠ 0 then
      mapInsert m1 "mobileCountryCode" (QVariant.int cell.uniqueCellId.mcc)
    else m1
  let m3 : QVariantMap :=
    if cell.uniqueCellId.mnc ≠ 0 then
      mapInsert m2 "mobileNetworkCode" (QVariant.int cell.uniqueCellId.mnc)
    else m2
  let m4 : QVariantMap :=
    if cell.uniqueCellId.locationCode ≠ 0 then
      mapInsert m3 "locationAreaCode" (QVariant.int cell.uniqueCellId.locationCode)
    else m3
  let m5 : QVariantMap :=
    if cell.uniqueCellId.cellId ≠ 0 then
      mapInsert m4 "cellId" (QVariant.int cell.uniqueCellId.cellId)
    else m4
  if m5.length < 5 then none
  else if cell.signalStrength ≠ 0 then
    some (mapInsert m5 "signalStrength" (QVariant.int cell.signalStrength))
  else some m5

/-- The list `cellTowers` that the loop of `cellTowerFields` builds. -/
def cellTowersList (cells : List CellPositioningData) : QVariantList :=
  cells.foldl (fun cellTowers cell =>
    match cellTowerMap cell with
    | none => cellTowers
    | some m => cellTowers ++ [QVariant.map m]) []

/-- Member function `cellTowerFields`. -/
def cellTowerFields (cells : List CellPositioningData) : QVariantMap :=
  if !cells.isEmpty then
    let cellTowers := cellTowersList cells
    if !cellTowers.isEmpty then mapInsert [] "cellTowers" (QVariant.list cellTowers)
    else []
  else []

/-- Member function `globalFields`. -/
def globalFields (s : Locator) : QVariantMap :=
  match s.simManager with
  | none => []
  | some sim =>
    if !sim.isValid then []
    else
      let m : QVariantMap := []
      let m := mapInsert m "carrier" (QVariant.string sim.serviceProviderName)
      let m := mapInsert m "considerIp" (QVariant.bool true)
      let m := mapInsert m "homeMobileCountryCode" (QVariant.string sim.mobileCountryCode)
      mapInsert m "homeMobileNetworkCode" (QVariant.string sim.mobileNetworkCode)

/-- Member function `fallbackFields`. -/
def fallbackFields (s : Locator) : QVariantMap :=
  let fallbacks : QVariantMap := []
  let fallbacks := mapInsert fallbacks "lacf" (QVariant.bool s.fallbacksLacf)
  let fallbacks := mapInsert fallbacks "ipf" (QVariant.bool s.fallbacksIpf)
  mapInsert [] "fallbacks" (QVariant.map fallbacks)

/-- Qt's `QString::endsWith`. -/
def endsWith (s suffix : String) : Bool :=
  suffix.data.isSuffixOf s.data

/-- Body of the loop of `wlanAccessPointFields` for one service: the entry that is
appended, or `none` where the loop continues without appending. -/
def wifiInfo (service : NetworkService) : Option QVariantMap :=
  if service.hidden || endsWith service.name "_nomap" then none
  else if service.bssid.isEmpty then none
  else
    let m : QVariantMap := []
    let m := mapInsert m "mac" (QVariant.string service.bssid)
    let m := mapInsert m "signal_strength" (QVariant.int service.strength)
    some (mapInsert m "age" (QVariant.int 500))

/-- Member function `wlanAccessPointFields`. -/
def wlanAccessPointFields (s : Locator) : QVariantList :=
  if !s.wlanServices.isEmpty then
    s.wlanServices.foldl (fun wifiInfoList service =>
      match wifiInfo service with
      | none => wifiInfoList
      | some m => wifiInfoList ++ [QVariant.map m]) []
  else []

/-- File-local function `cellIdsFromQueryData`. -/
def cellIdsFromQueryData (queryData : QVariantMap) : List Nat :=
  let cellTowers := (mapValue queryData "cellTowers").toList
  cellTowers.foldl (fun cellIds ct =>
    let ctm := ct.toMap
    let cellId := (mapValue ctm "cellId").toUInt
    if cellId ≠ 0 ∧ ¬ cellIds.contains cellId then cellIds ++ [cellId] else cellIds) []

/-! ## The scheduler: `buildLocationQuery` -/

/-- Line that `buildLocationQuery` writes to the debug log; each branch of the
function writes its own. -/
inductive LogLine where
  | noFieldData
  | postponing
  | performing (first interval info cells : Bool)
  | throttling
  | noConditions
  deriving DecidableEq

/-- Local `deltaMsecs` of `buildLocationQuery`. -/
def deltaMsecs (queryTimestamps : List Int) : Int :=
  if queryTimestamps.length < 3 then 0
  else queryTimestamps.headD 0 - queryTimestamps.getLastD 0

/-- Local `minutesPerQuery` of `buildLocationQuery`. -/
def minutesPerQuery (queryTimestamps : List Int) : ℚ :=
  if queryTimestamps.length < 3 then 6
  else ((deltaMsecs queryTimestamps : ℚ) / (1000 * 60)) / (queryTimestamps.length : ℚ)

/-- The update of the static `backOffFactor` (32 bits unsigned). -/
def updateBackOff (backOffFactor : Nat) (minutesPerQuery : ℚ) : Nat :=
  if minutesPerQuery > 6 ∨ backOffFactor > 64 then
    if backOffFactor ≤ 2 then 1 else backOffFactor / 2
  else if minutesPerQuery < 4 then
    if backOffFactor ≥ 32 then 64 else (backOffFactor * 2) % 4294967296
  else backOffFactor

/-- The value assigned to `m_adaptiveInterval` (computed in 32 bits unsigned). -/
def adaptiveIntervalFor (backOffFactor : Nat) : Int :=
  ((REQUEST_BASE_ADAPTIVE_INTERVAL + REQUEST_MODIFY_ADAPTIVE_INTERVAL * backOffFactor)
    % 4294967296 : Nat)

/-- Local `firstTimeQuery` of `buildLocationQuery`. -/
def firstTimeQuery (oldQuery : QDateTime × QVariantMap) : Bool :=
  oldQuery.1.isNull || oldQuery.2.isEmpty

/-- Local `intervalExceeded` of `buildLocationQuery`. -/
def intervalExceeded (s : Locator) (oldQuery : QDateTime × QVariantMap) (currDt : Int) :
    Bool :=
  oldQuery.1.isNull || decide (oldQuery.1.msecsTo (QDateTime.utc currDt) ≥ s.adaptiveInterval)

/-- Local `moreInfo` of `buildLocationQuery`. -/
def moreInfo (map : QVariantMap) (oldQuery : QDateTime × QVariantMap) : Bool :=
  decide (map.length > oldQuery.2.length)

/-- Local `newCells` of `buildLocationQuery`. -/
def newCells (map : QVariantMap) (oldQuery : QDateTime × QVariantMap) : Bool :=
  cellIdsFromQueryData oldQuery.2 != cellIdsFromQueryData map

/-- The timestamp list after `prepend` and the removal of the last entry when the
list has grown beyond `REQUEST_TIMESTAMPS_TO_TRACK`. -/
def pushTimestamp (queryTimestamps : List Int) (currMSecs : Int) : List Int :=
  let ts := currMSecs :: queryTimestamps
  if ts.length > REQUEST_TIMESTAMPS_TO_TRACK then ts.dropLast else ts

/-- What a call of `buildLocationQuery` leaves behind: the pair it returns, the
object afterwards, the line it logged. -/
structure QueryResult where
  query : QDateTime × QVariantMap
  state : Locator
  log : LogLine

/-- The pair `qMakePair(QDateTime(), QVariantMap())`. -/
def noQuery : QDateTime × QVariantMap := (QDateTime.null, [])

/-- Member function `buildLocationQuery`.  `currDt` is the reading of
`QDateTime::currentDateTimeUtc()` at the top, `currMSecs` the later reading of
`QDateTime::currentMSecsSinceEpoch()`. -/
def buildLocationQuery (s : Locator) (cells : List CellPositioningData)
    (oldQuery : QDateTime × QVariantMap) (currDt currMSecs : Int) : QueryResult :=
  let map : QVariantMap := mapUnite [] (cellTowerFields cells)
  if map.isEmpty then
    { query := noQuery, state := s, log := LogLine.noFieldData }
  else if !mapContains map "wifiAccessPoints" && s.waitForWlanInfo then
    { query := noQuery, state := { s with waitForWlanInfo := false },
      log := LogLine.postponing }
  else
    let map := mapUnite map (globalFields s)
    let map := mapUnite map (fallbackFields s)
    let first := firstTimeQuery oldQuery
    let interval := intervalExceeded s oldQuery currDt
    let info := moreInfo map oldQuery
    let cellsNew := newCells map oldQuery
    if first || interval || info || cellsNew then
      let backOffFactor := updateBackOff s.backOffFactor (minutesPerQuery s.queryTimestamps)
      let s1 := { s with backOffFactor := backOffFactor,
                         adaptiveInterval := adaptiveIntervalFor backOffFactor }
      if backOffFactor == 1 || interval then
        { query := (QDateTime.utc currDt, map),
          state := { s1 with queryTimestamps := pushTimestamp s.queryTimestamps currMSecs },
          log := LogLine.performing first interval info cellsNew }
      else
        { query := noQuery, state := s1, log := LogLine.throttling }
    else
      { query := noQuery, state := s, log := LogLine.noConditions }

/-- One call of `buildLocationQuery` as the object's owner makes it: the arguments,
the two clock readings, and the SIM manager as the modem slots have left it. -/
structure Call where
  simManager : Option SimManager
  cells : List CellPositioningData
  oldQuery : QDateTime × QVariantMap
  currDt : Int
  currMSecs : Int

/-- The result of one call. -/
def callResult (s : Locator) (c : Call) : QueryResult :=
  buildLocationQuery { s with simManager := c.simManager } c.cells c.oldQuery c.currDt
    c.currMSecs

/-- The object after a sequence of calls, oldest call first. -/
def run (s : Locator) (calls : List Call) : Locator :=
  calls.foldl (fun st c => (callResult st c).state) s

/-- The lines logged by a sequence of calls, oldest call first. -/
def runLog : Locator → List Call → List LogLine
  | _, [] => []
  | s, c :: rest => (callResult s c).log :: runLog (callResult s c).state rest

/-- Whether a line was logged by a call that went through the back-off update (the
branch guarded by the four conditions). -/
def LogLine.updatedBackOff : LogLine → Bool
  | LogLine.performing _ _ _ _ => true
  | LogLine.throttling => true
  | _ => false

/-- The relation between interval and factor that the calls maintain: `updated` says
whether some call so far went through the back-off update. -/
def IntervalInv (updated : Bool) (s : Locator) : Prop :=
  if updated then
    s.adaptiveInterval = 60000 + 10000 * (s.backOffFactor : Int) ∧
      1 ≤ s.backOffFactor ∧ s.backOffFactor ≤ 64
  else s.adaptiveInterval = 60000 ∧ s.backOffFactor = 8

/-! ## The fields as the interface describes them -/

/-- Whether a cell observation carries all five mandatory values: a supported radio
type (gsm, wcdma, lte) and non-zero mobile country code, mobile network code,
location area code and cell id. -/
def validForTransmission (cell : CellPositioningData) : Bool :=
  cell.uniqueCellId.cellType != CellType.other && cell.uniqueCellId.mcc != 0 &&
    cell.uniqueCellId.mnc != 0 && cell.uniqueCellId.locationCode != 0 &&
    cell.uniqueCellId.cellId != 0

/-- Name under which a radio type is transmitted. -/
def radioTypeName : CellType → String
  | CellType.lte => "lte"
  | CellType.gsm => "gsm"
  | CellType.umts => "wcdma"
  | CellType.other => ""

/-- Complete entry of the `cellTowers` list for an observation: the five mandatory
values, and the signal strength when it is not zero. -/
def cellTowerEntry (cell : CellPositioningData) : QVariantMap :=
  [("cellId", QVariant.int cell.uniqueCellId.cellId),
   ("locationAreaCode", QVariant.int cell.uniqueCellId.locationCode),
   ("mobileCountryCode", QVariant.int cell.uniqueCellId.mcc),
   ("mobileNetworkCode", QVariant.int cell.uniqueCellId.mnc),
   ("radioType", QVariant.string (radioTypeName cell.uniqueCellId.cellType))] ++
  (if cell.signalStrength ≠ 0 then [("signalStrength", QVariant.int cell.signalStrength)]
   else [])

/-- The payload that `buildLocationQuery` assembles in its third branch: cell tower
fields, then the global fields, then the fallback fields. -/
def candidatePayload (s : Locator) (cells : List CellPositioningData) : QVariantMap :=
  mapUnite (mapUnite (mapUnite [] (cellTowerFields cells)) (globalFields s)) (fallbackFields s)

/-- Whether a wireless service may be reported: not hidden, name not ending in
"_nomap", hardware address known. -/
def usableService (service : NetworkService) : Bool :=
  !service.hidden && !endsWith service.name "_nomap" && !service.bssid.isEmpty

/-- Entry of the wireless list for a service: mac, signal_strength and age = 500. -/
def wifiEntry (service : NetworkService) : QVariantMap :=
  [("age", QVariant.int 500), ("mac", QVariant.string service.bssid),
   ("signal_strength", QVariant.int service.strength)]

/-! ## The request life cycle -/

/-- Signal emitted by the locator. -/
inductive Signal where
  | locationFound (latitude longitude accuracy : QDouble)
  | error (message : String)
  deriving DecidableEq

/-- Document that `QJsonDocument::fromJson` returns for well-formed input: an array or
an object at the root. -/
inductive QJsonDocument where
  | array (xs : QVariantList)
  | object (m : QVariantMap)

/-- Bytes read from a reply, as far as the code looks at them: the text, what
`QJsonDocument::fromJson` makes of it (the error string of a parse error or the
document), and what `QString::toDouble` makes of the strings in it (`some` of the
number when it sets `ok`).  Both are routines of the library and are not modelled
here; every statement about a reply holds whatever they return. -/
structure ReplyData where
  text : String
  json : Except String QJsonDocument
  stringToDouble : String → Option QDouble

/-- Reply as the `finished` signal delivers it: the identity of the reply object,
`none` for `QNetworkReply::NoError` and otherwise the error string, and the bytes
that `readAll` returns. -/
structure FinishedReply where
  id : Nat
  error : Option String
  data : ReplyData

/-- What `readServerResponseData` leaves behind: its return value, the error string
behind the pointer, the signals emitted. -/
structure ReadResult where
  ok : Bool
  errorString : String
  emitted : List Signal

/-- Member function `readServerResponseData`; `errorString` is the string behind the
pointer at the time of the call. -/
def readServerResponseData (data : ReplyData) (errorString : String) : ReadResult :=
  match data.json with
  | Except.error parseError =>
    { ok := false, errorString := parseError, emitted := [] }
  | Except.ok (QJsonDocument.array _) =>
    { ok := false,
      errorString := "JSON parse error: expected object at root level, not found in "
        ++ data.text,
      emitted := [] }
  | Except.ok (QJsonDocument.object obj) =>
    let location := (mapValue obj "position").toMap
    if location.isEmpty then
      { ok := false,
        errorString := "JSON parse error: no location data found in " ++ data.text,
        emitted := [] }
    else
      match (mapValue location "latitude").toDouble data.stringToDouble,
            (mapValue location "longitude").toDouble data.stringToDouble with
      | some latitude, some longitude =>
        let accuracy : QDouble :=
          match (mapValue location "precision").toDouble data.stringToDouble with
          | some a => a
          | none => QDouble.finite (-1)
        { ok := true, errorString := errorString,
          emitted := [Signal.locationFound latitude longitude accuracy] }
      | _, _ =>
        { ok := false,
          errorString := "JSON parse error: latitude or longitude not readable in "
            ++ data.text,
          emitted := [] }

/-- Member function `checkError`; `now` is the reading of
`QDateTime::currentDateTimeUtc()`. -/
def checkError (s : Locator) (data : ReplyData) (now : Int) : Locator :=
  match data.json with
  | Except.error _ => s
  | Except.ok (QJsonDocument.array _) => s
  | Except.ok (QJsonDocument.object obj) =>
    let errorCode := (mapValue (mapValue obj "error").toMap "code").jsonToInt
    if errorCode = 400 then { s with keyFailureTime := toStringISODate now }
    else s

/-- Member function `loadYandexKey`; `keyFile` is the text of `/etc/yandex.key`,
`none` when the file does not exist or cannot be opened. -/
def loadYandexKey (s : Locator) (keyFile : Option String) : Bool × Locator :=
  match keyFile with
  | none => (false, s)
  | some key =>
    if key.isEmpty then (false, s)
    else (true, { s with yandexKey := key })

/-- The JSON document that `findLocation` builds for the request. -/
def requestDocument (s : Locator) : QVariantMap :=
  let doc : QVariantMap := []
  let common : QVariantMap := []
  let common := mapInsert common "version" (QVariant.string "1.0")
  let common := mapInsert common "api_key" (QVariant.string s.yandexKey)
  let doc := mapInsert doc "common" (QVariant.map common)
  let wlan := wlanAccessPointFields s
  if wlan.length > 0 then mapInsert doc "wifi_networks" (QVariant.list wlan)
  else doc

/-- What a call of `findLocation` reads from outside: the key file, the clock, and
the reply object that `post` returns (its identity, and whether it reports an error
right away). -/
structure FindInput where
  keyFile : Option String
  now : Int
  replyId : Nat
  postError : Bool

/-- What a call of `findLocation` leaves behind: its return value, the object
afterwards, and the document posted, `none` when nothing was posted. -/
structure FindResult where
  ret : Bool
  state : Locator
  posted : Option QVariantMap

/-- The key-failure check of `findLocation`: whether the stored failure time makes
the function return early ("Less than 12 hour old key failure, refusing a new try"). -/
def refusesNewTry (failureTimeString : TimeString) (now : Int) : Bool :=
  if !failureTimeString.isEmpty then
    let failureTime := failureTimeString.toDateTime
    if failureTime.isValid then
      let currentTime := QDateTime.utc now
      let diff := failureTime.msecsTo currentTime
      if diff ≥ 0 ∧ diff < 12 * 60 * 60 * 1000 then true else false
    else false
  else false

/-- Member function `findLocation`. -/
def findLocation (s : Locator) (inp : FindInput) : FindResult :=
  match loadYandexKey s inp.keyFile with
  | (false, s1) => { ret := false, state := s1, posted := none }
  | (true, s1) =>
    if s1.currentReply.isSome then { ret := true, state := s1, posted := none }
    else if refusesNewTry s1.keyFailureTime inp.now then
      { ret := false, state := s1, posted := none }
    else
      let doc := requestDocument s1
      let s2 := { s1 with currentReply := some { id := inp.replyId, timedOut := false } }
      if inp.postError then { ret := false, state := s2, posted := some doc }
      else { ret := true, state := { s2 with replyTimerActive := true }, posted := some doc }

/-- Slot `requestOnlineLocationFinished`: the object afterwards and the signals
emitted; `now` is the clock reading that `checkError` takes. -/
def requestOnlineLocationFinished (s : Locator) (reply : FinishedReply) (now : Int) :
    Locator × List Signal :=
  match s.currentReply with
  | none => (s, [])
  | some current =>
    if current.id ≠ reply.id then (s, [])
    else
      let errorString : String := ""
      let (s1, emitted) : Locator × List Signal :=
        if current.timedOut then (s, [Signal.error "manual timeout"])
        else
          match reply.error with
          | none =>
            let s1 := { s with keyFailureTime := TimeString.empty }
            let r := readServerResponseData reply.data errorString
            if !r.ok then (s1, r.emitted ++ [Signal.error r.errorString])
            else (s1, r.emitted)
          | some replyErrorString =>
            (checkError s reply.data now, [Signal.error replyErrorString])
      ({ s1 with currentReply := none, replyTimerActive := false }, emitted)

/-- Slot `timeoutReply`, run when the single-shot reply timer fires: marks the
reply as timed out and aborts it.  The abort makes the network layer deliver the
reply through `finished`, which is a call of `requestOnlineLocationFinished`. -/
def timeoutReply (s : Locator) : Locator :=
  match s.currentReply with
  | none => s
  | some current =>
    { s with currentReply := some { current with timedOut := true },
             replyTimerActive := false }

/-- Twelve hours in milliseconds, the constant `12*60*60*1000` of `findLocation`. -/
def twelveHours : Int := 12 * 60 * 60 * 1000

/-- Whether a response body fails parsing or shape validation: not valid JSON, no
object at the root, no position, or latitude or longitude not readable by
`QVariant::toDouble`. -/
def malformedBody (data : ReplyData) : Bool :=
  match data.json with
  | Except.error _ => true
  | Except.ok (QJsonDocument.array _) => true
  | Except.ok (QJsonDocument.object obj) =>
    ((mapValue obj "position").toMap).isEmpty ||
    ((mapValue ((mapValue obj "position").toMap) "latitude").toDouble
      data.stringToDouble).isNone ||
    ((mapValue ((mapValue obj "position").toMap) "longitude").toDouble
      data.stringToDouble).isNone

/-- A valid cell observation used in the examples. -/
def exampleCell : CellPositioningData :=
  { uniqueCellId := { cellType := CellType.lte, cellId := 1234, locationCode := 77,
                      mcc := 250, mnc := 1 },
    signalStrength := -70 }

/-- The string conversion for the example bodies that hold no string: it is never
asked. -/
def noStrings (_ : String) : Option QDouble := none

/-- The response body of scenario B. -/
def exampleSuccessBody : ReplyData :=
  { text := "\x7b\"position\":\x7b\"latitude\":55.75,\"longitude\":37.62,\"precision\":30\x7d\x7d"
    json := Except.ok (QJsonDocument.object
      [("position", QVariant.map
        [("latitude", QVariant.double 55.75), ("longitude", QVariant.double 37.62),
         ("precision", QVariant.double 30)])])
    stringToDouble := noStrings }

/-- The response body of scenario C. -/
def exampleKeyRejectedBody : ReplyData :=
  { text := "\x7b\"error\":\x7b\"code\":400\x7d\x7d"
    json := Except.ok (QJsonDocument.object
      [("error", QVariant.map [("code", QVariant.double 400)])])
    stringToDouble := noStrings }

/-- A response body that is not JSON. -/
def exampleGarbageBody : ReplyData :=
  { text := "<html>", json := Except.error "illegal value", stringToDouble := noStrings }

/-- A response body whose latitude is the JSON value `true`. -/
def exampleBooleanLatitudeBody : ReplyData :=
  { text := "\x7b\"position\":\x7b\"latitude\":true,\"longitude\":37.62\x7d\x7d"
    json := Except.ok (QJsonDocument.object
      [("position", QVariant.map
        [("latitude", QVariant.bool true), ("longitude", QVariant.double 37.62)])])
    stringToDouble := noStrings }

/-- What `QString::toDouble` makes of the strings of the next example: it reads
exponent notation and skips the blanks around a number. -/
def exampleStringToDouble (s : String) : Option QDouble :=
  if s = "1234.56e-02" then some (QDouble.finite 12.3456)
  else if s = " 37.62 " then some (QDouble.finite 37.62)
  else none

/-- A response body whose latitude and longitude are JSON strings. -/
def exampleStringLatitudeBody : ReplyData :=
  { text := "\x7b\"position\":\x7b\"latitude\":\"1234.56e-02\",\"longitude\":\" 37.62 \"\x7d\x7d"
    json := Except.ok (QJsonDocument.object
      [("position", QVariant.map
        [("latitude", QVariant.string "1234.56e-02"),
         ("longitude", QVariant.string " 37.62 ")])])
    stringToDouble := exampleStringToDouble }

/-- The error string that `readServerResponseData` sets for a malformed body: the
parser's message, or the message of the failed shape check followed by the body. -/
def protocolErrorString (data : ReplyData) : String :=
  match data.json with
  | Except.error parseError => parseError
  | Except.ok (QJsonDocument.array _) =>
    "JSON parse error: expected object at root level, not found in " ++ data.text
  | Except.ok (QJsonDocument.object obj) =>
    if ((mapValue obj "position").toMap).isEmpty then
      "JSON parse error: no location data found in " ++ data.text
    else "JSON parse error: latitude or longitude not readable in " ++ data.text

/-! ## The locator among its callers -/

/-- What can happen to the locator from outside: a call of `findLocation`, the
network layer delivering a reply through `finished`, the reply timer firing. -/
inductive Event where
  | find (inp : FindInput)
  | finished (reply : FinishedReply) (now : Int)
  | timeout

/-- The locator together with the network layer's side of the requests: the
identities of the replies that `post` has handed out and that have not yet been
delivered back through `finished`. -/
structure World where
  locator : Locator
  outstanding : List Nat

/-- One event.  The timer fires only while it is running. -/
def step (w : World) : Event → World
  | Event.find inp =>
    { locator := (findLocation w.locator inp).state,
      outstanding :=
        match (findLocation w.locator inp).posted with
        | some _ => inp.replyId :: w.outstanding
        | none => w.outstanding }
  | Event.finished reply now =>
    { locator := (requestOnlineLocationFinished w.locator reply now).1,
      outstanding := w.outstanding.filter (fun id => id != reply.id) }
  | Event.timeout =>
    if w.locator.replyTimerActive then { w with locator := timeoutReply w.locator }
    else w

/-- The world after a sequence of events, oldest first. -/
def runEvents (w : World) (events : List Event) : World :=
  events.foldl step w

/-- The world right after construction: nothing posted yet. -/
def initialWorld (fallbacksLacf fallbacksIpf : Bool) (keyFailureTime : TimeString) : World :=
  { locator := initial fallbacksLacf fallbacksIpf keyFailureTime, outstanding := [] }

/-- The scheduler's result used in the examples: the second call of scenario A, which
issues a query with one cell tower. -/
def exampleIssued : QueryResult :=
  callResult (callResult (initial true true TimeString.empty)
      ⟨none, [exampleCell], noQuery, 1700000000000, 1700000000001⟩).state
    ⟨none, [exampleCell], noQuery, 1700000005000, 1700000005001⟩

/-- The members of the scheduler's payload: cell towers, carrier fields, fallbacks. -/
def schedulerKeys : List String :=
  ["cellTowers", "carrier", "considerIp", "homeMobileCountryCode", "homeMobileNetworkCode",
   "fallbacks"]

/-- The posted document as the interface describes it: the member `common` with the
version "1.0" and the key, and the member `wifi_networks` unless the list is empty. -/
def wireDocument (key : String) (wifi : QVariantList) : QVariantMap :=
  [("common", QVariant.map [("api_key", QVariant.string key),
                            ("version", QVariant.string "1.0")])] ++
  (if wifi.isEmpty then [] else [("wifi_networks", QVariant.list wifi)])

/-- The cell ids of the towers of a payload as `cellIdsFromQueryData` reads them,
one per tower, in the order of the towers. -/
def rawCellIds (queryData : QVariantMap) : List Nat :=
  ((mapValue queryData "cellTowers").toList).map
    (fun ct => (mapValue ct.toMap "cellId").toUInt)

/-- The distinct members of a list in the order of their first occurrence. -/
def distinctInOrder : List Nat → List Nat
  | [] => []
  | x :: xs => x :: (distinctInOrder xs).filter (fun y => y != x)

/-- A payload with the cell towers 1 and 2, in this order. -/
def examplePayload12 : QVariantMap :=
  [("cellTowers", QVariant.list
    [QVariant.map [("cellId", QVariant.int 1)], QVariant.map [("cellId", QVariant.int 2)]])]

/-- A payload with the cell towers 2 and 1, in this order. -/
def examplePayload21 : QVariantMap :=
  [("cellTowers", QVariant.list
    [QVariant.map [("cellId", QVariant.int 2)], QVariant.map [("cellId", QVariant.int 1)]])]

/-- Whether a completion is classified as "key rejected": it is for the reply held,
that reply has not been timed out by hand, it carries a transport error, and its
body is a JSON object whose error.code reads as 400. -/
def keyRejectedCompletion (s : Locator) (reply : FinishedReply) : Bool :=
  match s.currentReply with
  | none => false
  | some current =>
    current.id == reply.id && !current.timedOut && reply.error.isSome &&
    (match reply.data.json with
     | Except.ok (QJsonDocument.object obj) =>
       decide ((mapValue (mapValue obj "error").toMap "code").jsonToInt = 400)
     | _ => false)

/-- The values the back-off factor takes: the powers of two up to 64. -/
def backOffValues : List Nat := [1, 2, 4, 8, 16, 32, 64]

/-- An error body with a code other than 400. -/
def exampleOtherErrorBody : ReplyData :=
  { text := "\x7b\"error\":\x7b\"code\":403\x7d\x7d"
    json := Except.ok (QJsonDocument.object
      [("error", QVariant.map [("code", QVariant.double 403)])])
    stringToDouble := noStrings }

/-- Whether the SIM manager exists and is valid, the condition under which
`globalFields` adds its four fields. -/
def simValid (s : Locator) : Bool :=
  match s.simManager with
  | some sim => sim.isValid
  | none => false

/-- A valid SIM used in the examples. -/
def exampleSim : SimManager :=
  { isValid := true, serviceProviderName := "Operator", mobileCountryCode := "250",
    mobileNetworkCode := "01" }

/-- A state for the examples: the wait for wireless data is over, the SIM has become
valid, and the back-off factor has come down to 1. -/
def exampleRelaxed : Locator :=
  { initial true true TimeString.empty with
    waitForWlanInfo := false, backOffFactor := 1, simManager := some exampleSim }

/-- The previous query of the examples: sent one second before, with the same cell
and no SIM fields. -/
def examplePrevious : QDateTime × QVariantMap :=
  (QDateTime.utc 1700000000000,
   candidatePayload (initial true true TimeString.empty) [exampleCell])

/-- A state for the examples: factor 8, the SIM valid, and three sends three minutes
apart, the last of them one second ago. -/
def exampleBusy : Locator :=
  { initial true true TimeString.empty with
    waitForWlanInfo := false, simManager := some exampleSim,
    queryTimestamps := [1700000000000, 1699999820000, 1699999640000] }

/-! # Theorems -/

/-! ## The back-off factor and the adaptive interval -/

theorem updateBackOff_bounds (f : Nat) (q : ℚ) (h1 : 1 ≤ f) (h2 : f ≤ 64) :
    1 ≤ updateBackOff f q ∧ updateBackOff f q ≤ 64 := by
  unfold updateBackOff
  split_ifs <;> omega

theorem adaptiveIntervalFor_eq (f : Nat) (h : f ≤ 64) :
    adaptiveIntervalFor f = 60000 + 10000 * (f : Int) := by
  unfold adaptiveIntervalFor REQUEST_BASE_ADAPTIVE_INTERVAL REQUEST_MODIFY_ADAPTIVE_INTERVAL
  omega

/-- The factor after a call is the factor before it or its update. -/
theorem buildLocationQuery_backOffFactor (s : Locator) (cells : List CellPositioningData)
    (oldQuery : QDateTime × QVariantMap) (currDt currMSecs : Int) :
    (buildLocationQuery s cells oldQuery currDt currMSecs).state.backOffFactor
        = s.backOffFactor ∨
    (buildLocationQuery s cells oldQuery currDt currMSecs).state.backOffFactor
        = updateBackOff s.backOffFactor (minutesPerQuery s.queryTimestamps) := by
  unfold buildLocationQuery
  simp only []
  split_ifs <;> simp

theorem callResult_bounds (s : Locator) (c : Call) (h1 : 1 ≤ s.backOffFactor)
    (h2 : s.backOffFactor ≤ 64) :
    1 ≤ (callResult s c).state.backOffFactor ∧ (callResult s c).state.backOffFactor ≤ 64 := by
  unfold callResult
  rcases buildLocationQuery_backOffFactor { s with simManager := c.simManager } c.cells
    c.oldQuery c.currDt c.currMSecs with h | h
  · rw [h]; exact ⟨h1, h2⟩
  · rw [h]; exact updateBackOff_bounds _ _ h1 h2

theorem run_bounds (calls : List Call) : ∀ s : Locator, 1 ≤ s.backOffFactor →
    s.backOffFactor ≤ 64 →
    1 ≤ (run s calls).backOffFactor ∧ (run s calls).backOffFactor ≤ 64 := by
  induction calls with
  | nil => intro s h1 h2; exact ⟨h1, h2⟩
  | cons c rest ih =>
    intro s h1 h2
    have hb := callResult_bounds s c h1 h2
    exact ih (callResult s c).state hb.1 hb.2

theorem callResult_intervalInv (s : Locator) (c : Call) (b : Bool) (h : IntervalInv b s) :
    IntervalInv (b || (callResult s c).log.updatedBackOff) (callResult s c).state := by
  have hb : 1 ≤ s.backOffFactor ∧ s.backOffFactor ≤ 64 := by
    cases b
    · simp [IntervalInv] at h; omega
    · simp [IntervalInv] at h; omega
  have hu := updateBackOff_bounds s.backOffFactor (minutesPerQuery s.queryTimestamps) hb.1 hb.2
  have hi := adaptiveIntervalFor_eq _ hu.2
  unfold callResult buildLocationQuery
  simp only []
  split_ifs
  · simpa [LogLine.updatedBackOff] using h
  · simpa [LogLine.updatedBackOff, IntervalInv] using h
  · simp [LogLine.updatedBackOff, IntervalInv, hi, hu]
  · simp [LogLine.updatedBackOff, IntervalInv, hi, hu]
  · simpa [LogLine.updatedBackOff] using h

theorem run_intervalInv (calls : List Call) : ∀ (s : Locator) (b : Bool), IntervalInv b s →
    IntervalInv (b || (runLog s calls).any LogLine.updatedBackOff) (run s calls) := by
  induction calls with
  | nil => intro s b h; simpa [run, runLog] using h
  | cons c rest ih =>
    intro s b h
    have h1 := ih _ _ (callResult_intervalInv s c b h)
    simpa [run, runLog, Bool.or_assoc] using h1

/-- C1: from a state with back-off factor 8 (the initial value), with any timestamp
history, after any finite sequence of `buildLocationQuery` calls with any cells,
previous queries and clock readings, the back-off factor lies in [1, 64]. -/
theorem backOffFactor_in_range (s0 : Locator) (h : s0.backOffFactor = 8)
    (calls : List Call) :
    1 ≤ (run s0 calls).backOffFactor ∧ (run s0 calls).backOffFactor ≤ 64 :=
  run_bounds calls s0 (by omega) (by omega)

/-- Witness of C1: the constructor's state and one call without data. -/
theorem backOffFactor_in_range_witness :
    (initial true true TimeString.empty).backOffFactor = 8 ∧
    1 ≤ (run (initial true true TimeString.empty)
          [⟨none, [], noQuery, 1000, 1000⟩]).backOffFactor ∧
    (run (initial true true TimeString.empty)
          [⟨none, [], noQuery, 1000, 1000⟩]).backOffFactor ≤ 64 :=
  ⟨rfl, backOffFactor_in_range (initial true true TimeString.empty) rfl
    [⟨none, [], noQuery, 1000, 1000⟩]⟩

/-- C2 as stated fails: in the state the constructor leaves, the factor is 8 and the
adaptive interval is 60000, not 60000 + 10000 × 8. -/
theorem adaptiveInterval_initial_counterexample :
    (run (initial true true TimeString.empty) []).backOffFactor = 8 ∧
    (run (initial true true TimeString.empty) []).adaptiveInterval = 60000 ∧
    ¬ ((run (initial true true TimeString.empty) []).adaptiveInterval
        = 60000 + 10000 * ((run (initial true true TimeString.empty) []).backOffFactor : Int)) := by
  decide

/-- C2, amended: in every state reachable from the initial state by calls of
`buildLocationQuery`, the adaptive interval equals 60000 + 10000 × factor as soon as
one of the calls has gone through the back-off update; until then (the initial state
included) the interval is the base 60000 and the factor is 8. -/
theorem adaptiveInterval_reachable (lacf ipf : Bool) (k : TimeString) (calls : List Call) :
    if (runLog (initial lacf ipf k) calls).any LogLine.updatedBackOff then
      (run (initial lacf ipf k) calls).adaptiveInterval
        = 60000 + 10000 * ((run (initial lacf ipf k) calls).backOffFactor : Int)
    else
      (run (initial lacf ipf k) calls).adaptiveInterval = 60000 ∧
      (run (initial lacf ipf k) calls).backOffFactor = 8 := by
  have h0 : IntervalInv false (initial lacf ipf k) := by
    simp [IntervalInv, initial, REQUEST_BASE_ADAPTIVE_INTERVAL]
  have h := run_intervalInv calls (initial lacf ipf k) false h0
  simp only [Bool.false_or] at h
  unfold IntervalInv at h
  split_ifs at h ⊢
  · exact h.1
  · exact h

/-! ## The request fields -/

theorem foldl_append_filterMap {α β : Type} (f : α → Option β) (xs : List α) :
    ∀ acc : List β,
      xs.foldl (fun acc x => match f x with
        | none => acc
        | some y => acc ++ [y]) acc = acc ++ xs.filterMap f := by
  induction xs with
  | nil => intro acc; simp
  | cons x rest ih =>
    intro acc
    cases hx : f x with
    | none => simp [List.foldl, hx, ih, List.filterMap_cons]
    | some y => simp [List.foldl, hx, ih, List.filterMap_cons]

theorem filterMap_ite_eq {α β : Type} (p : α → Bool) (g : α → β) (xs : List α) :
    xs.filterMap (fun x => if p x then some (g x) else none) = (xs.filter p).map g := by
  induction xs with
  | nil => rfl
  | cons x rest ih =>
    by_cases hp : p x = true
    · simp [List.filterMap_cons, List.filter_cons, hp, ih]
    · simp [List.filterMap_cons, List.filter_cons, hp, ih]

theorem cellTowerMap_eq (cell : CellPositioningData) :
    cellTowerMap cell
      = if validForTransmission cell then some (cellTowerEntry cell) else none := by
  rcases cell with ⟨⟨ty, id, lac, mcc, mnc⟩, sig⟩
  cases ty <;> by_cases h1 : mcc = 0 <;> by_cases h2 : mnc = 0 <;> by_cases h3 : lac = 0 <;>
    by_cases h4 : id = 0 <;> by_cases h5 : sig = 0 <;>
    simp +decide [cellTowerMap, mapInsert, validForTransmission, cellTowerEntry,
      radioTypeName, h1, h2, h3, h4, h5]

theorem cellTowersList_eq (cells : List CellPositioningData) :
    cellTowersList cells
      = (cells.filter validForTransmission).map (fun c => QVariant.map (cellTowerEntry c)) := by
  have h : cellTowersList cells
      = cells.filterMap (fun c => (cellTowerMap c).map QVariant.map) := by
    unfold cellTowersList
    have h2 := foldl_append_filterMap (fun c => (cellTowerMap c).map QVariant.map) cells []
    rw [List.nil_append] at h2
    rw [← h2]
    congr 1
    funext acc c
    cases cellTowerMap c <;> rfl
  rw [h, ← filterMap_ite_eq]
  congr 1
  funext c
  rw [cellTowerMap_eq]
  split_ifs <;> rfl

theorem cellTowerFields_eq (cells : List CellPositioningData) :
    cellTowerFields cells =
      if (cells.filter validForTransmission).isEmpty then []
      else [("cellTowers", QVariant.list
        ((cells.filter validForTransmission).map (fun c => QVariant.map (cellTowerEntry c))))] := by
  unfold cellTowerFields
  rw [cellTowersList_eq]
  cases cells with
  | nil => simp
  | cons c rest =>
    by_cases h : List.filter validForTransmission (c :: rest) = []
    · simp [h]
    · simp [h, mapInsert]

theorem wifiInfo_eq (service : NetworkService) :
    wifiInfo service = if usableService service then some (wifiEntry service) else none := by
  unfold wifiInfo usableService wifiEntry
  cases service.hidden <;> cases endsWith service.name "_nomap" <;>
    cases service.bssid.isEmpty <;> simp +decide [mapInsert]

/-- C8: the `cellTowers` list made by `cellTowerFields` is, in input order, the list of
the complete entries of exactly those observations that have a supported radio type
and non-zero mcc, mnc, location area code and cell id; the key `cellTowers` is absent
when no observation qualifies, and nothing else is in the map. -/
theorem cellTowerFields_exact (cells : List CellPositioningData) :
    (mapValue (cellTowerFields cells) "cellTowers").toList
      = (cells.filter validForTransmission).map (fun c => QVariant.map (cellTowerEntry c)) ∧
    mapContains (cellTowerFields cells) "cellTowers"
      = !(cells.filter validForTransmission).isEmpty ∧
    cellTowerFields cells =
      (if (cells.filter validForTransmission).isEmpty then []
       else [("cellTowers", QVariant.list
        ((cells.filter validForTransmission).map (fun c => QVariant.map (cellTowerEntry c))))]) := by
  refine ⟨?_, ?_, cellTowerFields_eq cells⟩
  · rw [cellTowerFields_eq]
    by_cases h : List.filter validForTransmission cells = []
    · simp [h, mapValue, QVariant.toList]
    · simp [h, mapValue, QVariant.toList]
  · rw [cellTowerFields_eq]
    by_cases h : List.filter validForTransmission cells = []
    · simp [h, mapContains]
    · simp [h, mapContains]

theorem wlanAccessPointFields_eq (s : Locator) :
    wlanAccessPointFields s
      = (s.wlanServices.filter usableService).map (fun sv => QVariant.map (wifiEntry sv)) := by
  unfold wlanAccessPointFields
  cases hs : s.wlanServices with
  | nil => simp
  | cons sv rest =>
    simp only [List.isEmpty_cons, Bool.not_false, if_true]
    have h2 := foldl_append_filterMap (fun sv => (wifiInfo sv).map QVariant.map)
      (sv :: rest) []
    rw [List.nil_append] at h2
    have h3 : (sv :: rest).foldl (fun wifiInfoList service =>
          match wifiInfo service with
          | none => wifiInfoList
          | some m => wifiInfoList ++ [QVariant.map m]) []
        = (sv :: rest).filterMap (fun sv => (wifiInfo sv).map QVariant.map) := by
      rw [← h2]
      congr 1
      funext acc x
      cases wifiInfo x <;> rfl
    rw [h3, ← filterMap_ite_eq]
    congr 1
    funext x
    rw [wifiInfo_eq]
    split_ifs <;> rfl

/-- C9: `wlanAccessPointFields` returns, in input order, one entry
{mac, signal_strength, age = 500} for each service that is not hidden, whose name does
not end in "_nomap" and whose hardware address is not empty; a hidden service and a
service named "home_nomap" are not among these, whatever their strength. -/
theorem wlanAccessPointFields_exact (s : Locator) :
    wlanAccessPointFields s
      = (s.wlanServices.filter usableService).map (fun sv => QVariant.map (wifiEntry sv)) ∧
    (∀ (name bssid : String) (strength : Nat),
      usableService ⟨true, name, bssid, strength⟩ = false) ∧
    (∀ (hidden : Bool) (bssid : String) (strength : Nat),
      usableService ⟨hidden, "home_nomap", bssid, strength⟩ = false) := by
  refine ⟨wlanAccessPointFields_eq s, ?_, ?_⟩
  · intro name bssid strength
    simp [usableService]
  · intro hidden bssid strength
    have h : endsWith "home_nomap" "_nomap" = true := by decide
    simp [usableService, h]

/-! ## The decision of `buildLocationQuery` -/

theorem mapInsertMulti_ne_nil (m : QVariantMap) (k : String) (v : QVariant) :
    mapInsertMulti m k v ≠ [] := by
  cases m with
  | nil => simp [mapInsertMulti]
  | cons kv rest =>
    rcases kv with ⟨k', v'⟩
    unfold mapInsertMulti
    split_ifs <;> simp

theorem mapUnite_ne_nil (m other : QVariantMap) (h : m ≠ []) : mapUnite m other ≠ [] := by
  cases other with
  | nil => simpa [mapUnite] using h
  | cons kv rest =>
    unfold mapUnite
    rw [List.foldr_cons]
    exact mapInsertMulti_ne_nil _ _ _

theorem cellTowerFields_shape (cells : List CellPositioningData)
    (h : cellTowerFields cells ≠ []) :
    ∃ l : QVariantList, cellTowerFields cells = [("cellTowers", QVariant.list l)] := by
  rw [cellTowerFields_eq] at h ⊢
  split_ifs at h ⊢ with hc
  · exact absurd rfl h
  · exact ⟨_, rfl⟩

theorem candidatePayload_ne_nil (s : Locator) (cells : List CellPositioningData)
    (h : cellTowerFields cells ≠ []) : candidatePayload s cells ≠ [] := by
  obtain ⟨l, hl⟩ := cellTowerFields_shape cells h
  unfold candidatePayload
  apply mapUnite_ne_nil
  apply mapUnite_ne_nil
  rw [hl]
  simp [mapUnite, mapInsertMulti]

/-- The first call with cell data while the static `waitForWlanInfo` is still set:
nothing is returned and the flag is cleared. -/
theorem buildLocationQuery_postponed (s : Locator) (cells : List CellPositioningData)
    (oldQuery : QDateTime × QVariantMap) (currDt currMSecs : Int)
    (hmap : cellTowerFields cells ≠ []) (hflag : s.waitForWlanInfo = true) :
    (buildLocationQuery s cells oldQuery currDt currMSecs).query = noQuery ∧
    (buildLocationQuery s cells oldQuery currDt currMSecs).state
      = { s with waitForWlanInfo := false } ∧
    (buildLocationQuery s cells oldQuery currDt currMSecs).log = LogLine.postponing := by
  obtain ⟨l, hl⟩ := cellTowerFields_shape cells hmap
  unfold buildLocationQuery
  simp +decide [hl, hflag, mapUnite, mapInsertMulti, mapContains]

/-- The pair returned by a call that gets past the first two branches. -/
theorem buildLocationQuery_query (s : Locator) (cells : List CellPositioningData)
    (oldQuery : QDateTime × QVariantMap) (currDt currMSecs : Int)
    (hmap : cellTowerFields cells ≠ []) (hflag : s.waitForWlanInfo = false) :
    (buildLocationQuery s cells oldQuery currDt currMSecs).query =
      if (firstTimeQuery oldQuery || intervalExceeded s oldQuery currDt ||
            moreInfo (candidatePayload s cells) oldQuery ||
            newCells (candidatePayload s cells) oldQuery) &&
          (updateBackOff s.backOffFactor (minutesPerQuery s.queryTimestamps) == 1 ||
            intervalExceeded s oldQuery currDt)
      then (QDateTime.utc currDt, candidatePayload s cells) else noQuery := by
  obtain ⟨l, hl⟩ := cellTowerFields_shape cells hmap
  have hne : mapUnite [] (cellTowerFields cells) ≠ [] := by
    rw [hl]; simp [mapUnite, mapInsertMulti]
  unfold buildLocationQuery candidatePayload
  simp only [List.isEmpty_eq_true, hne, if_false, hflag, Bool.and_false, Bool.false_eq_true]
  split_ifs <;> simp_all

theorem mapInsertMulti_length (m : QVariantMap) (k : String) (v : QVariant) :
    (mapInsertMulti m k v).length = m.length + 1 := by
  induction m with
  | nil => simp [mapInsertMulti]
  | cons kv rest ih =>
    rcases kv with ⟨k', v'⟩
    unfold mapInsertMulti
    split_ifs
    · simp [ih]
    · simp

theorem mapUnite_length (m other : QVariantMap) :
    (mapUnite m other).length = m.length + other.length := by
  induction other with
  | nil => simp [mapUnite]
  | cons kv rest ih =>
    unfold mapUnite at ih ⊢
    rw [List.foldr_cons, mapInsertMulti_length, ih]
    simp only [List.length_cons]
    omega

theorem globalFields_length (s : Locator) :
    (globalFields s).length = if simValid s then 4 else 0 := by
  unfold globalFields simValid
  cases s.simManager with
  | none => rfl
  | some sim =>
    cases hv : sim.isValid
    · simp [hv]
    · simp +decide [mapInsert, hv]

/-- The candidate payload has the member cellTowers, the member fallbacks, and the
four SIM fields when the SIM is valid. -/
theorem candidatePayload_length (s : Locator) (cells : List CellPositioningData)
    (hmap : cellTowerFields cells ≠ []) :
    (candidatePayload s cells).length = if simValid s then 6 else 2 := by
  obtain ⟨l, hl⟩ := cellTowerFields_shape cells hmap
  unfold candidatePayload
  rw [mapUnite_length, mapUnite_length, mapUnite_length, globalFields_length, hl]
  have hf : (fallbackFields s).length = 1 := by simp [fallbackFields, mapInsert]
  rw [hf]
  split_ifs <;> simp

/-- The cell towers of the candidate payload are those of `cellTowerFields`. -/
theorem candidatePayload_cellTowers (s : Locator) (cells : List CellPositioningData) :
    mapValue (candidatePayload s cells) "cellTowers"
      = mapValue (cellTowerFields cells) "cellTowers" := by
  have hshape : cellTowerFields cells = [] ∨
      ∃ l : QVariantList, cellTowerFields cells = [("cellTowers", QVariant.list l)] := by
    by_cases h : cellTowerFields cells = []
    · exact Or.inl h
    · exact Or.inr (cellTowerFields_shape cells h)
  unfold candidatePayload globalFields fallbackFields
  rcases hshape with h | ⟨l, h⟩ <;> rw [h] <;> cases s.simManager with
  | none => simp +decide [mapUnite, mapInsertMulti, mapInsert, mapValue]
  | some sim =>
    cases hv : sim.isValid <;>
      simp +decide [hv, mapUnite, mapInsertMulti, mapInsert, mapValue]

/-- The cell ids that `cellIdsFromQueryData` reads from the candidate payload are the
ids of the cells that are valid for transmission, in input order. -/
theorem candidatePayload_rawCellIds (s : Locator) (cells : List CellPositioningData) :
    rawCellIds (candidatePayload s cells)
      = (cells.filter validForTransmission).map
          (fun c => ((c.uniqueCellId.cellId : Int) % 4294967296).toNat) := by
  unfold rawCellIds
  rw [candidatePayload_cellTowers, cellTowerFields_eq]
  by_cases h : List.filter validForTransmission cells = []
  · simp [h, mapValue, QVariant.toList]
  · simp only [List.isEmpty_eq_true, h, if_false, mapValue, List.find?_cons, beq_self_eq_true,
      QVariant.toList, List.map_map]
    apply List.map_congr_left
    intro c _
    simp [cellTowerEntry, mapValue, QVariant.toMap, QVariant.toUInt]

/-- What a call that gets past the first two branches does with the back-off state. -/
theorem buildLocationQuery_eligible (s : Locator) (cells : List CellPositioningData)
    (oldQuery : QDateTime × QVariantMap) (currDt currMSecs : Int)
    (hmap : cellTowerFields cells ≠ []) (hflag : s.waitForWlanInfo = false) :
    ((firstTimeQuery oldQuery || intervalExceeded s oldQuery currDt ||
        moreInfo (candidatePayload s cells) oldQuery ||
        newCells (candidatePayload s cells) oldQuery) = true →
      (buildLocationQuery s cells oldQuery currDt currMSecs).state.backOffFactor
        = updateBackOff s.backOffFactor (minutesPerQuery s.queryTimestamps) ∧
      (buildLocationQuery s cells oldQuery currDt currMSecs).state.adaptiveInterval
        = adaptiveIntervalFor
            (updateBackOff s.backOffFactor (minutesPerQuery s.queryTimestamps)) ∧
      (buildLocationQuery s cells oldQuery currDt currMSecs).log.updatedBackOff = true) ∧
    ((firstTimeQuery oldQuery || intervalExceeded s oldQuery currDt ||
        moreInfo (candidatePayload s cells) oldQuery ||
        newCells (candidatePayload s cells) oldQuery) = false →
      (buildLocationQuery s cells oldQuery currDt currMSecs).state = s ∧
      (buildLocationQuery s cells oldQuery currDt currMSecs).log = LogLine.noConditions) := by
  obtain ⟨l, hl⟩ := cellTowerFields_shape cells hmap
  have hne : mapUnite [] (cellTowerFields cells) ≠ [] := by
    rw [hl]; simp [mapUnite, mapInsertMulti]
  unfold buildLocationQuery candidatePayload
  simp only [List.isEmpty_eq_true, hne, if_false, hflag, Bool.and_false, Bool.false_eq_true]
  generalize firstTimeQuery oldQuery = a
  generalize intervalExceeded s oldQuery currDt = b
  generalize moreInfo (mapUnite (mapUnite (mapUnite [] (cellTowerFields cells))
    (globalFields s)) (fallbackFields s)) oldQuery = c
  generalize newCells (mapUnite (mapUnite (mapUnite [] (cellTowerFields cells))
    (globalFields s)) (fallbackFields s)) oldQuery = d
  cases a <;> cases b <;> cases c <;> cases d <;>
    simp only [Bool.or_self, Bool.or_true, Bool.true_or, Bool.or_false, Bool.false_eq_true,
      if_true, if_false, false_implies, true_implies, implies_true, and_true, true_and,
      and_self] <;>
    first
      | (split_ifs <;> simp [LogLine.updatedBackOff])
      | simp [LogLine.updatedBackOff]

/-- The two gates of the third branch, as a proposition. -/
theorem gate_iff (a b c d : Bool) (n : Nat) :
    (((a || b || c || d) && (n == 1 || b)) = true) ↔
      ((a = true ∨ b = true ∨ c = true ∨ d = true) ∧ (n = 1 ∨ b = true)) := by
  cases a <;> cases b <;> cases c <;> cases d <;> simp

/-- C3: scenario A.  For every non-empty list of valid cell observations (and no
wireless data, which the function never reads): the first call of the process, with
no previous query, returns the empty pair and clears the wait-for-wireless flag; a
second call with the same cells and still no previous query returns the current time
with a non-empty payload that carries the cell towers. -/
theorem scenarioA (lacf ipf : Bool) (k : TimeString) (sim1 sim2 : Option SimManager)
    (cells : List CellPositioningData) (hne : cells ≠ [])
    (hvalid : ∀ c ∈ cells, validForTransmission c = true) (dt1 ms1 dt2 ms2 : Int) :
    (callResult (initial lacf ipf k) ⟨sim1, cells, noQuery, dt1, ms1⟩).query = noQuery ∧
    (callResult (initial lacf ipf k) ⟨sim1, cells, noQuery, dt1, ms1⟩).state.waitForWlanInfo
      = false ∧
    (callResult (callResult (initial lacf ipf k) ⟨sim1, cells, noQuery, dt1, ms1⟩).state
        ⟨sim2, cells, noQuery, dt2, ms2⟩).query.1 = QDateTime.utc dt2 ∧
    (callResult (callResult (initial lacf ipf k) ⟨sim1, cells, noQuery, dt1, ms1⟩).state
        ⟨sim2, cells, noQuery, dt2, ms2⟩).query.2 ≠ [] ∧
    (callResult (callResult (initial lacf ipf k) ⟨sim1, cells, noQuery, dt1, ms1⟩).state
        ⟨sim2, cells, noQuery, dt2, ms2⟩).query.2
      = candidatePayload { initial lacf ipf k with simManager := sim2 } cells := by
  have hfilter : cells.filter validForTransmission = cells :=
    List.filter_eq_self.mpr hvalid
  have hmap : cellTowerFields cells ≠ [] := by
    rw [cellTowerFields_eq, hfilter]
    cases cells with
    | nil => exact absurd rfl hne
    | cons c rest => simp
  have h1 := buildLocationQuery_postponed { initial lacf ipf k with simManager := sim1 }
    cells noQuery dt1 ms1 hmap rfl
  have hst : (callResult (initial lacf ipf k) ⟨sim1, cells, noQuery, dt1, ms1⟩).state
      = { initial lacf ipf k with simManager := sim1, waitForWlanInfo := false } := h1.2.1
  have hq1 : (callResult (initial lacf ipf k) ⟨sim1, cells, noQuery, dt1, ms1⟩).query
      = noQuery := h1.1
  have h2 := buildLocationQuery_query
    { initial lacf ipf k with simManager := sim2, waitForWlanInfo := false }
    cells noQuery dt2 ms2 hmap rfl
  have hfirst : firstTimeQuery noQuery = true := rfl
  rw [hfirst] at h2
  have hint : intervalExceeded
      { initial lacf ipf k with simManager := sim2, waitForWlanInfo := false } noQuery dt2
      = true := rfl
  rw [hint] at h2
  simp only [Bool.true_or, Bool.or_true, Bool.and_self, if_true] at h2
  have hq2 : (callResult (callResult (initial lacf ipf k)
        ⟨sim1, cells, noQuery, dt1, ms1⟩).state ⟨sim2, cells, noQuery, dt2, ms2⟩).query
      = (QDateTime.utc dt2, candidatePayload
          { initial lacf ipf k with simManager := sim2 } cells) := by
    rw [hst]
    exact h2
  refine ⟨hq1, ?_, ?_, ?_, ?_⟩
  · rw [hst]
  · rw [hq2]
  · rw [hq2]
    exact candidatePayload_ne_nil _ cells hmap
  · rw [hq2]

/-- C4: for a call that gets to the third branch (cell tower fields not empty, the
wait-for-wireless flag already cleared), the call returns the current time with the
(non-empty) candidate payload if and only if one of firstTimeQuery, intervalExceeded,
moreInfo, newCells holds and the updated back-off factor is 1 or intervalExceeded
holds; otherwise it returns the empty pair.  The four conditions are: firstTimeQuery,
the previous time stamp is null or the previous payload is empty; intervalExceeded,
the previous time stamp is null or lies at least the interval in force before the
update behind the current time; moreInfo, the candidate payload has more top-level
members than the previous one (it has 2, or 6 with a valid SIM); newCells, the cell
ids read from the previous payload differ from those of the candidate, which are
the ids of the valid cells. -/
theorem issues_iff (s : Locator) (cells : List CellPositioningData)
    (oldQuery : QDateTime × QVariantMap) (currDt currMSecs : Int)
    (hmap : cellTowerFields cells ≠ []) (hflag : s.waitForWlanInfo = false) :
    candidatePayload s cells ≠ [] ∧
    ((buildLocationQuery s cells oldQuery currDt currMSecs).query
        = (QDateTime.utc currDt, candidatePayload s cells) ↔
      ((firstTimeQuery oldQuery = true ∨ intervalExceeded s oldQuery currDt = true ∨
          moreInfo (candidatePayload s cells) oldQuery = true ∨
          newCells (candidatePayload s cells) oldQuery = true) ∧
        (updateBackOff s.backOffFactor (minutesPerQuery s.queryTimestamps) = 1 ∨
          intervalExceeded s oldQuery currDt = true))) ∧
    ((buildLocationQuery s cells oldQuery currDt currMSecs).query = noQuery ↔
      ¬ ((firstTimeQuery oldQuery = true ∨ intervalExceeded s oldQuery currDt = true ∨
          moreInfo (candidatePayload s cells) oldQuery = true ∨
          newCells (candidatePayload s cells) oldQuery = true) ∧
        (updateBackOff s.backOffFactor (minutesPerQuery s.queryTimestamps) = 1 ∨
          intervalExceeded s oldQuery currDt = true))) ∧
    (intervalExceeded s oldQuery currDt = true ↔
      (oldQuery.1 = QDateTime.null ∨
        oldQuery.1.msecsTo (QDateTime.utc currDt) ≥ s.adaptiveInterval)) ∧
    (firstTimeQuery oldQuery = true ↔ (oldQuery.1 = QDateTime.null ∨ oldQuery.2 = [])) ∧
    (moreInfo (candidatePayload s cells) oldQuery = true ↔
      oldQuery.2.length < (candidatePayload s cells).length) ∧
    (candidatePayload s cells).length = (if simValid s then 6 else 2) ∧
    (newCells (candidatePayload s cells) oldQuery = true ↔
      cellIdsFromQueryData oldQuery.2 ≠ cellIdsFromQueryData (candidatePayload s cells)) ∧
    rawCellIds (candidatePayload s cells)
      = (cells.filter validForTransmission).map
          (fun c => ((c.uniqueCellId.cellId : Int) % 4294967296).toNat) ∧
    ((buildLocationQuery s cells oldQuery currDt currMSecs).query
        = (QDateTime.utc currDt, candidatePayload s cells) ↔
      (((oldQuery.1 = QDateTime.null ∨ oldQuery.2 = []) ∨
          (oldQuery.1 = QDateTime.null ∨
            oldQuery.1.msecsTo (QDateTime.utc currDt) ≥ s.adaptiveInterval) ∨
          oldQuery.2.length < (if simValid s then 6 else 2) ∨
          cellIdsFromQueryData oldQuery.2
            ≠ cellIdsFromQueryData (candidatePayload s cells)) ∧
        (updateBackOff s.backOffFactor (minutesPerQuery s.queryTimestamps) = 1 ∨
          (oldQuery.1 = QDateTime.null ∨
            oldQuery.1.msecsTo (QDateTime.utc currDt) ≥ s.adaptiveInterval)))) := by
  have hq := buildLocationQuery_query s cells oldQuery currDt currMSecs hmap hflag
  have hne := candidatePayload_ne_nil s cells hmap
  have hiff := gate_iff (firstTimeQuery oldQuery) (intervalExceeded s oldQuery currDt)
    (moreInfo (candidatePayload s cells) oldQuery) (newCells (candidatePayload s cells) oldQuery)
    (updateBackOff s.backOffFactor (minutesPerQuery s.queryTimestamps))
  have hdiff : (QDateTime.utc currDt, candidatePayload s cells) ≠ noQuery := by
    intro h
    have h1 := congrArg Prod.fst h
    simp [noQuery] at h1
  have hissue : (buildLocationQuery s cells oldQuery currDt currMSecs).query
        = (QDateTime.utc currDt, candidatePayload s cells) ↔
      ((firstTimeQuery oldQuery = true ∨ intervalExceeded s oldQuery currDt = true ∨
          moreInfo (candidatePayload s cells) oldQuery = true ∨
          newCells (candidatePayload s cells) oldQuery = true) ∧
        (updateBackOff s.backOffFactor (minutesPerQuery s.queryTimestamps) = 1 ∨
          intervalExceeded s oldQuery currDt = true)) := by
    rw [hq, ← hiff]
    split_ifs with hc
    · exact ⟨fun _ => hc, fun _ => rfl⟩
    · exact ⟨fun h => absurd h.symm hdiff, fun h => absurd h hc⟩
  have hinterval : intervalExceeded s oldQuery currDt = true ↔
      (oldQuery.1 = QDateTime.null ∨
        oldQuery.1.msecsTo (QDateTime.utc currDt) ≥ s.adaptiveInterval) := by
    unfold intervalExceeded
    cases h1 : oldQuery.1 <;> simp [QDateTime.isNull]
  have hfirst : firstTimeQuery oldQuery = true ↔
      (oldQuery.1 = QDateTime.null ∨ oldQuery.2 = []) := by
    unfold firstTimeQuery
    cases h1 : oldQuery.1 <;> simp [QDateTime.isNull]
  have hmore : moreInfo (candidatePayload s cells) oldQuery = true ↔
      oldQuery.2.length < (candidatePayload s cells).length := by
    unfold moreInfo
    simp
  have hlen := candidatePayload_length s cells hmap
  have hnew : newCells (candidatePayload s cells) oldQuery = true ↔
      cellIdsFromQueryData oldQuery.2 ≠ cellIdsFromQueryData (candidatePayload s cells) := by
    unfold newCells
    simp
  refine ⟨hne, hissue, ?_, hinterval, hfirst, hmore, hlen, hnew,
    candidatePayload_rawCellIds s cells, ?_⟩
  · rw [hq, ← hiff]
    split_ifs with hc
    · exact ⟨fun h => absurd h hdiff, fun h => absurd hc h⟩
    · exact ⟨fun _ => hc, fun _ => rfl⟩
  · rw [hissue, hfirst, hinterval, hmore, hnew, hlen]

/-- Witness of C3: one valid LTE cell, calls at two different times. -/
theorem scenarioA_witness :
    ([exampleCell] ≠ [] ∧ ∀ c ∈ [exampleCell], validForTransmission c = true) ∧
    (callResult (initial true true TimeString.empty)
        ⟨none, [exampleCell], noQuery, 1700000000000, 1700000000001⟩).query = noQuery ∧
    (callResult (callResult (initial true true TimeString.empty)
        ⟨none, [exampleCell], noQuery, 1700000000000, 1700000000001⟩).state
        ⟨none, [exampleCell], noQuery, 1700000005000, 1700000005001⟩).query.1
      = QDateTime.utc 1700000005000 :=
  ⟨⟨by decide, by decide⟩,
   (scenarioA true true TimeString.empty none none [exampleCell] (by decide) (by decide)
      1700000000000 1700000000001 1700000005000 1700000005001).1,
   (scenarioA true true TimeString.empty none none [exampleCell] (by decide) (by decide)
      1700000000000 1700000000001 1700000005000 1700000005001).2.2.1⟩

/-- Witness of C4: a call that issues on moreInfo alone.  The previous query was sent
one second ago with the same cell, the SIM has become valid since, and the factor is
1: the first, second and fourth condition are false, the payload has grown from 2 to
6 members, and the call issues. -/
theorem issues_iff_witness :
    (cellTowerFields [exampleCell] ≠ [] ∧ exampleRelaxed.waitForWlanInfo = false) ∧
    (firstTimeQuery examplePrevious = false ∧
      intervalExceeded exampleRelaxed examplePrevious 1700000001000 = false ∧
      newCells (candidatePayload exampleRelaxed [exampleCell]) examplePrevious = false ∧
      moreInfo (candidatePayload exampleRelaxed [exampleCell]) examplePrevious = true ∧
      examplePrevious.2.length = 2 ∧
      (candidatePayload exampleRelaxed [exampleCell]).length = 6) ∧
    (buildLocationQuery exampleRelaxed [exampleCell] examplePrevious
        1700000001000 1700000001001).query
      = (QDateTime.utc 1700000001000, candidatePayload exampleRelaxed [exampleCell]) :=
  ⟨⟨fun h => absurd (congrArg List.isEmpty h) (by decide), rfl⟩,
   ⟨by decide, by decide, by decide, by decide, by decide, by decide⟩,
   (issues_iff exampleRelaxed [exampleCell] examplePrevious 1700000001000 1700000001001
      (fun h => absurd (congrArg List.isEmpty h) (by decide)) rfl).2.1.mpr
      ⟨Or.inr (Or.inr (Or.inl (by decide))), Or.inl (by decide)⟩⟩

/-! ## The key-failure cool-down -/

/-- A call of `findLocation` with a loadable key, nothing in flight, and a stored
failure time that is between 0 and 12 hours old: nothing is posted. -/
theorem findLocation_refused (s : Locator) (m : Int) (inp : FindInput)
    (hreply : s.currentReply = none) (hmark : s.keyFailureTime = TimeString.iso m)
    (h0 : 0 ≤ inp.now - m) (h12 : inp.now - m < twelveHours) :
    (findLocation s inp).ret = false ∧ (findLocation s inp).posted = none ∧
    (findLocation s inp).state.currentReply = none ∧
    (findLocation s inp).state.keyFailureTime = TimeString.iso m := by
  have hr : refusesNewTry (TimeString.iso m) inp.now = true := by
    unfold twelveHours at h12
    simp [refusesNewTry, TimeString.isEmpty, TimeString.toDateTime, QDateTime.isValid,
      QDateTime.msecsTo]
    omega
  unfold findLocation loadYandexKey
  cases hk : inp.keyFile with
  | none => simp [hreply, hmark]
  | some key =>
    by_cases he : key.isEmpty = true
    · simp [he, hreply, hmark]
    · simp [he, hreply, hmark, hr]

/-- A call of `findLocation` with a loadable key, nothing in flight, and a stored
failure time that is 12 hours old or more, or lies in the future: the request is
posted. -/
theorem findLocation_posts (s : Locator) (m now : Int) (key : String) (replyId : Nat)
    (postError : Bool) (hkey : key.isEmpty = false) (hreply : s.currentReply = none)
    (hmark : s.keyFailureTime = TimeString.iso m)
    (h : now - m ≥ twelveHours ∨ now - m < 0) :
    (findLocation s ⟨some key, now, replyId, postError⟩).posted
      = some (requestDocument { s with yandexKey := key }) ∧
    (findLocation s ⟨some key, now, replyId, postError⟩).state.currentReply
      = some ⟨replyId, false⟩ ∧
    (findLocation s ⟨some key, now, replyId, postError⟩).ret = !postError := by
  have hr : refusesNewTry (TimeString.iso m) now = false := by
    unfold twelveHours at h
    simp [refusesNewTry, TimeString.isEmpty, TimeString.toDateTime, QDateTime.isValid,
      QDateTime.msecsTo]
    omega
  unfold findLocation loadYandexKey
  cases postError <;> simp [hkey, hreply, hmark, hr]

/-- C5 as stated fails: a stored failure time ten minutes ahead of the clock gives
now − t < 12 h, the key loads and nothing is in flight, yet `findLocation` posts the
request and returns true. -/
theorem findLocation_markerAhead_counterexample :
    (initial true true (TimeString.iso 1700000600000)).currentReply = none ∧
    (1700000000000 : Int) - 1700000600000 < twelveHours ∧
    (findLocation (initial true true (TimeString.iso 1700000600000))
      ⟨some "key", 1700000000000, 1, false⟩).ret = true ∧
    (findLocation (initial true true (TimeString.iso 1700000600000))
      ⟨some "key", 1700000000000, 1, false⟩).posted.isSome = true := by
  decide

/-- C5, amended: with a loadable key, no request in flight and a stored key-failure
time t: while 0 ≤ now − t < 12 h, `findLocation` returns false, posts nothing and
changes nothing but the loaded key; when now − t ≥ 12 h (so also when it exceeds 12 h),
or when t lies ahead of now, `findLocation` posts the request and holds the new
reply. -/
theorem findLocation_keyFailure (s : Locator) (t now : Int) (key : String) (replyId : Nat)
    (postError : Bool) (hkey : key.isEmpty = false) (hreply : s.currentReply = none)
    (hmark : s.keyFailureTime = TimeString.iso t) :
    ((0 ≤ now - t ∧ now - t < twelveHours) →
      (findLocation s ⟨some key, now, replyId, postError⟩).ret = false ∧
      (findLocation s ⟨some key, now, replyId, postError⟩).posted = none ∧
      (findLocation s ⟨some key, now, replyId, postError⟩).state
        = { s with yandexKey := key }) ∧
    ((now - t ≥ twelveHours ∨ now - t < 0) →
      (findLocation s ⟨some key, now, replyId, postError⟩).posted
        = some (requestDocument { s with yandexKey := key }) ∧
      (findLocation s ⟨some key, now, replyId, postError⟩).state.currentReply
        = some ⟨replyId, false⟩ ∧
      (findLocation s ⟨some key, now, replyId, postError⟩).ret = !postError) := by
  constructor
  · intro h
    have hr := findLocation_refused s t ⟨some key, now, replyId, postError⟩ hreply hmark
      h.1 h.2
    refine ⟨hr.1, hr.2.1, ?_⟩
    have hr2 : refusesNewTry (TimeString.iso t) now = true := by
      have h2 := h.2
      unfold twelveHours at h2
      simp [refusesNewTry, TimeString.isEmpty, TimeString.toDateTime, QDateTime.isValid,
        QDateTime.msecsTo]
      omega
    unfold findLocation loadYandexKey
    simp [hkey, hreply, hmark, hr2]
  · intro h
    exact findLocation_posts s t now key replyId postError hkey hreply hmark h

/-- Witness of C5: a failure time 11 h 59 min old refuses, one 12 h 1 min old
posts. -/
theorem findLocation_keyFailure_witness :
    ("key".isEmpty = false ∧
      (initial true true (TimeString.iso 1700000000000)).currentReply = none ∧
      (initial true true (TimeString.iso 1700000000000)).keyFailureTime
        = TimeString.iso 1700000000000) ∧
    (findLocation (initial true true (TimeString.iso 1700000000000))
      ⟨some "key", 1700043140000, 1, false⟩).posted = none ∧
    (findLocation (initial true true (TimeString.iso 1700000000000))
      ⟨some "key", 1700043260000, 1, false⟩).state.currentReply = some ⟨1, false⟩ :=
  ⟨⟨by decide, rfl, rfl⟩,
   ((findLocation_keyFailure (initial true true (TimeString.iso 1700000000000))
      1700000000000 1700043140000 "key" 1 false (by decide) rfl rfl).1 (by decide)).2.1,
   ((findLocation_keyFailure (initial true true (TimeString.iso 1700000000000))
      1700000000000 1700043260000 "key" 1 false (by decide) rfl rfl).2
        (Or.inl (by decide))).2.1⟩

/-- After the completion with a rejected key, the object holds no reply and the stored
failure time is the completion time cut to whole seconds. -/
theorem finished_keyRejected (s : Locator) (current : Reply) (reply : FinishedReply)
    (t : Int) (e : String) (obj : QVariantMap)
    (hcur : s.currentReply = some current) (hid : current.id = reply.id)
    (hto : current.timedOut = false) (herr : reply.error = some e)
    (hjson : reply.data.json = Except.ok (QJsonDocument.object obj))
    (hcode : (mapValue (mapValue obj "error").toMap "code").jsonToInt = 400) :
    requestOnlineLocationFinished s reply t
      = ({ s with keyFailureTime := TimeString.iso (t / 1000 * 1000),
                  currentReply := none, replyTimerActive := false },
         [Signal.error e]) := by
  unfold requestOnlineLocationFinished checkError
  simp [hcur, hid, hto, herr, hjson, hcode, toStringISODate]

/-- C6 as stated fails: a key rejection that completes at second 1700000001 plus
500 ms is stored as second 1700000001 (not as the completion time), and a
`findLocation` call 11 h 59 min 59.7 s after the completion posts a request. -/
theorem keyRejected_cooldown_counterexample :
    (requestOnlineLocationFinished
      (findLocation (initial true true TimeString.empty)
        ⟨some "key", 1700000000000, 1, false⟩).state
      ⟨1, some "Bad Request", exampleKeyRejectedBody⟩ 1700000001500).1.keyFailureTime
      = TimeString.iso 1700000001000 ∧
    ((1700000001500 : Int) ≤ 1700043201200 ∧
      (1700043201200 : Int) < 1700000001500 + twelveHours) ∧
    (findLocation
      (requestOnlineLocationFinished
        (findLocation (initial true true TimeString.empty)
          ⟨some "key", 1700000000000, 1, false⟩).state
        ⟨1, some "Bad Request", exampleKeyRejectedBody⟩ 1700000001500).1
      ⟨some "key", 1700043201200, 2, false⟩).ret = true ∧
    (findLocation
      (requestOnlineLocationFinished
        (findLocation (initial true true TimeString.empty)
          ⟨some "key", 1700000000000, 1, false⟩).state
        ⟨1, some "Bad Request", exampleKeyRejectedBody⟩ 1700000001500).1
      ⟨some "key", 1700043201200, 2, false⟩).posted.isSome = true := by
  decide

/-- C6, amended: scenario C.  If the reply in flight completes at time t with a
transport error and a body that is a JSON object with error.code = 400, the stored
key-failure time becomes t cut to whole seconds (the stored text has no
milliseconds), exactly one signal, the error, is emitted, and every `findLocation`
call at a time t' with t ≤ t' < ⌊t⌋ + 12 h returns false and posts nothing, leaving
the stored time and the empty reply slot as they are. -/
theorem keyRejected_cooldown (s : Locator) (current : Reply) (reply : FinishedReply)
    (t : Int) (e : String) (obj : QVariantMap)
    (hcur : s.currentReply = some current) (hid : current.id = reply.id)
    (hto : current.timedOut = false) (herr : reply.error = some e)
    (hjson : reply.data.json = Except.ok (QJsonDocument.object obj))
    (hcode : (mapValue (mapValue obj "error").toMap "code").jsonToInt = 400) :
    (requestOnlineLocationFinished s reply t).1.keyFailureTime
      = TimeString.iso (t / 1000 * 1000) ∧
    (requestOnlineLocationFinished s reply t).2 = [Signal.error e] ∧
    ∀ inp : FindInput, t ≤ inp.now → inp.now < t / 1000 * 1000 + twelveHours →
      (findLocation (requestOnlineLocationFinished s reply t).1 inp).ret = false ∧
      (findLocation (requestOnlineLocationFinished s reply t).1 inp).posted = none ∧
      (findLocation (requestOnlineLocationFinished s reply t).1 inp).state.currentReply
        = none ∧
      (findLocation (requestOnlineLocationFinished s reply t).1 inp).state.keyFailureTime
        = TimeString.iso (t / 1000 * 1000) := by
  rw [finished_keyRejected s current reply t e obj hcur hid hto herr hjson hcode]
  refine ⟨rfl, rfl, ?_⟩
  intro inp h1 h2
  exact findLocation_refused _ (t / 1000 * 1000) inp rfl rfl (by omega) (by omega)

/-- Witness of C6: the request of the example is rejected half a second after a full
second; a call one hour later is refused. -/
theorem keyRejected_cooldown_witness :
    (findLocation (initial true true TimeString.empty)
        ⟨some "key", 1700000000000, 1, false⟩).state.currentReply = some ⟨1, false⟩ ∧
    (findLocation
      (requestOnlineLocationFinished
        (findLocation (initial true true TimeString.empty)
          ⟨some "key", 1700000000000, 1, false⟩).state
        ⟨1, some "Bad Request", exampleKeyRejectedBody⟩ 1700000001500).1
      ⟨some "key", 1700003601500, 2, false⟩).posted = none :=
  ⟨rfl,
   ((keyRejected_cooldown
      (findLocation (initial true true TimeString.empty)
        ⟨some "key", 1700000000000, 1, false⟩).state
      ⟨1, false⟩ ⟨1, some "Bad Request", exampleKeyRejectedBody⟩ 1700000001500
      "Bad Request" [("error", QVariant.map [("code", QVariant.double 400)])]
      rfl rfl rfl rfl rfl (by decide)).2.2
      ⟨some "key", 1700003601500, 2, false⟩ (by decide) (by decide)).2.1⟩

/-! ## Responses -/

/-- What `readServerResponseData` does with a malformed body. -/
theorem readServerResponseData_malformed (data : ReplyData) (es : String)
    (h : malformedBody data = true) :
    (readServerResponseData data es).ok = false ∧
    (readServerResponseData data es).emitted = [] := by
  unfold malformedBody at h
  unfold readServerResponseData
  cases hj : data.json with
  | error err => simp
  | ok doc =>
    cases doc with
    | array xs => simp
    | object obj =>
      rw [hj] at h
      simp only [Bool.or_eq_true, List.isEmpty_eq_true, Option.isNone_iff_eq_none] at h
      by_cases hloc : (mapValue obj "position").toMap = []
      · simp [hloc]
      · rcases h with (h | h) | h
        · exact absurd h hloc
        · simp [hloc, h]
        · simp only [List.isEmpty_eq_true, hloc, if_false, h]
          cases (mapValue (mapValue obj "position").toMap "latitude").toDouble data.stringToDouble <;> simp

/-- What `readServerResponseData` does with a body that is not malformed. -/
theorem readServerResponseData_wellFormed (data : ReplyData) (es : String)
    (h : malformedBody data = false) :
    (readServerResponseData data es).ok = true ∧
    ∃ la lo acc, (readServerResponseData data es).emitted = [Signal.locationFound la lo acc] := by
  unfold malformedBody at h
  unfold readServerResponseData
  cases hj : data.json with
  | error err => rw [hj] at h; simp at h
  | ok doc =>
    cases doc with
    | array xs => rw [hj] at h; simp at h
    | object obj =>
      rw [hj] at h
      simp only [Bool.or_eq_false_iff, List.isEmpty_eq_false, Option.isNone_eq_false_iff,
        Option.isSome_iff_exists] at h
      obtain ⟨⟨hloc, ⟨la, hla⟩⟩, ⟨lo, hlo⟩⟩ := h
      have hloc2 : ¬ (mapValue obj "position").toMap = [] := by
        intro h0; rw [h0] at hloc; simp at hloc
      simp [hloc2, hla, hlo]

/-- C7 as stated fails: a request sent 13 hours after a stored key failure completes
without transport error and with a body that is not JSON; an error is emitted, and the
stored failure time, present before the completion, is gone after it. -/
theorem malformed_response_counterexample :
    malformedBody exampleGarbageBody = true ∧
    (findLocation (initial true true (TimeString.iso 1700000000000))
        ⟨some "key", 1700046800000, 1, false⟩).state.keyFailureTime
      = TimeString.iso 1700000000000 ∧
    (requestOnlineLocationFinished
      (findLocation (initial true true (TimeString.iso 1700000000000))
        ⟨some "key", 1700046800000, 1, false⟩).state
      ⟨1, none, exampleGarbageBody⟩ 1700046800500).2 = [Signal.error "illegal value"] ∧
    (requestOnlineLocationFinished
      (findLocation (initial true true (TimeString.iso 1700000000000))
        ⟨some "key", 1700046800000, 1, false⟩).state
      ⟨1, none, exampleGarbageBody⟩ 1700046800500).1.keyFailureTime = TimeString.empty ∧
    (requestOnlineLocationFinished
      (findLocation (initial true true (TimeString.iso 1700000000000))
        ⟨some "key", 1700046800000, 1, false⟩).state
      ⟨1, none, exampleGarbageBody⟩ 1700046800500).1.keyFailureTime
      ≠ (findLocation (initial true true (TimeString.iso 1700000000000))
        ⟨some "key", 1700046800000, 1, false⟩).state.keyFailureTime := by
  decide

/-- C7, amended: when the reply in flight completes without transport error before
the timeout and the body fails parsing or shape validation (invalid JSON, no object at
the root, no position, latitude or longitude not readable), exactly one signal is
emitted, the error with the parser's message, and the stored key-failure time is
cleared: it is empty after the completion, so it keeps its value only if it was empty
before. -/
theorem malformed_response (s : Locator) (current : Reply) (reply : FinishedReply)
    (now : Int) (hcur : s.currentReply = some current) (hid : current.id = reply.id)
    (hto : current.timedOut = false) (herr : reply.error = none)
    (hbad : malformedBody reply.data = true) :
    (requestOnlineLocationFinished s reply now).2
      = [Signal.error (readServerResponseData reply.data "").errorString] ∧
    (requestOnlineLocationFinished s reply now).1.keyFailureTime = TimeString.empty ∧
    ((requestOnlineLocationFinished s reply now).1.keyFailureTime = s.keyFailureTime ↔
      s.keyFailureTime = TimeString.empty) := by
  have hm := readServerResponseData_malformed reply.data "" hbad
  have h1 : requestOnlineLocationFinished s reply now
      = ({ s with keyFailureTime := TimeString.empty, currentReply := none,
                  replyTimerActive := false },
         [Signal.error (readServerResponseData reply.data "").errorString]) := by
    unfold requestOnlineLocationFinished
    simp [hcur, hid, hto, herr, hm.1, hm.2]
  rw [h1]
  refine ⟨rfl, rfl, ?_⟩
  constructor
  · intro h; exact h.symm
  · intro h; exact h.symm

/-- Witness of C7: the request of the counterexample, completed with a body that is
not JSON. -/
theorem malformed_response_witness :
    (findLocation (initial true true (TimeString.iso 1700000000000))
        ⟨some "key", 1700046800000, 1, false⟩).state.currentReply = some ⟨1, false⟩ ∧
    malformedBody exampleGarbageBody = true ∧
    (requestOnlineLocationFinished
      (findLocation (initial true true (TimeString.iso 1700000000000))
        ⟨some "key", 1700046800000, 1, false⟩).state
      ⟨1, none, exampleGarbageBody⟩ 1700046800500).1.keyFailureTime = TimeString.empty :=
  ⟨rfl, rfl,
   (malformed_response
      (findLocation (initial true true (TimeString.iso 1700000000000))
        ⟨some "key", 1700046800000, 1, false⟩).state
      ⟨1, false⟩ ⟨1, none, exampleGarbageBody⟩ 1700046800500 rfl rfl rfl rfl rfl).2.1⟩

/-- C10: for every response body that is a JSON object whose position member holds a
latitude and a longitude that `QVariant::toDouble` reads (in particular: numbers),
`readServerResponseData` returns true and emits exactly one signal,
locationFound(latitude, longitude, accuracy), where accuracy is the precision when
that is read (in particular: present and a number) and −1 when it is absent or not
read; the error string is left as it was.  A number is read as itself; a string is
read as whatever `QString::toDouble` makes of it. -/
theorem readServerResponseData_success (data : ReplyData) (es : String)
    (obj location : QVariantMap) (latitude longitude : QDouble)
    (hjson : data.json = Except.ok (QJsonDocument.object obj))
    (hpos : mapValue obj "position" = QVariant.map location)
    (hlat : (mapValue location "latitude").toDouble data.stringToDouble = some latitude)
    (hlon : (mapValue location "longitude").toDouble data.stringToDouble = some longitude) :
    (readServerResponseData data es).ok = true ∧
    (readServerResponseData data es).errorString = es ∧
    (readServerResponseData data es).emitted
      = [Signal.locationFound latitude longitude
          (((mapValue location "precision").toDouble data.stringToDouble).getD
            (QDouble.finite (-1)))] ∧
    (∀ la : ℚ, mapValue location "latitude" = QVariant.double la →
      latitude = QDouble.finite la) ∧
    (∀ lo : ℚ, mapValue location "longitude" = QVariant.double lo →
      longitude = QDouble.finite lo) ∧
    (∀ p : ℚ, mapValue location "precision" = QVariant.double p →
      (readServerResponseData data es).emitted
        = [Signal.locationFound latitude longitude (QDouble.finite p)]) ∧
    (∀ (str : String) (p : QDouble), mapValue location "precision" = QVariant.string str →
      data.stringToDouble str = some p →
      (readServerResponseData data es).emitted
        = [Signal.locationFound latitude longitude p]) ∧
    (∀ str : String, mapValue location "precision" = QVariant.string str →
      data.stringToDouble str = none →
      (readServerResponseData data es).emitted
        = [Signal.locationFound latitude longitude (QDouble.finite (-1))]) ∧
    (mapContains location "precision" = false →
      (readServerResponseData data es).emitted
        = [Signal.locationFound latitude longitude (QDouble.finite (-1))]) ∧
    ((mapValue location "precision").toDouble data.stringToDouble = none →
      (readServerResponseData data es).emitted
        = [Signal.locationFound latitude longitude (QDouble.finite (-1))]) := by
  have hne : location ≠ [] := by
    intro h0
    rw [h0] at hlat
    simp [mapValue, QVariant.toDouble] at hlat
  have hemit : (readServerResponseData data es).emitted
      = [Signal.locationFound latitude longitude
          (((mapValue location "precision").toDouble data.stringToDouble).getD
            (QDouble.finite (-1)))] := by
    unfold readServerResponseData
    simp only [hjson, hpos, QVariant.toMap, List.isEmpty_eq_true, hne, if_false, hlat, hlon]
    cases (mapValue location "precision").toDouble data.stringToDouble <;> rfl
  refine ⟨?_, ?_, hemit, ?_, ?_, ?_, ?_, ?_, ?_, ?_⟩
  · unfold readServerResponseData
    simp [hjson, hpos, QVariant.toMap, hne, hlat, hlon]
  · unfold readServerResponseData
    simp [hjson, hpos, QVariant.toMap, hne, hlat, hlon]
  · intro la hla
    rw [hla] at hlat
    exact (Option.some.inj hlat).symm
  · intro lo hlo
    rw [hlo] at hlon
    exact (Option.some.inj hlon).symm
  · intro p hp
    rw [hemit, hp]
    rfl
  · intro str p hp hread
    rw [hemit, hp]
    simp [QVariant.toDouble, hread]
  · intro str hp hread
    rw [hemit, hp]
    simp [QVariant.toDouble, hread]
  · intro habs
    have hv : mapValue location "precision" = QVariant.invalid := by
      unfold mapValue
      unfold mapContains at habs
      have hf : List.find? (fun kv => kv.1 == "precision") location = none := by
        rw [List.find?_eq_none]
        intro x hx
        have := List.any_eq_false.mp habs x hx
        simpa using this
      rw [hf]
    rw [hemit, hv]
    rfl
  · intro hnone
    rw [hemit, hnone]
    rfl

/-- Witness of C10: latitude 55.75, longitude 37.62, precision 30 give
locationFound(55.75, 37.62, 30). -/
theorem readServerResponseData_success_witness :
    (exampleSuccessBody.json = Except.ok (QJsonDocument.object
      [("position", QVariant.map
        [("latitude", QVariant.double 55.75), ("longitude", QVariant.double 37.62),
         ("precision", QVariant.double 30)])])) ∧
    (readServerResponseData exampleSuccessBody "").ok = true ∧
    (readServerResponseData exampleSuccessBody "").emitted
      = [Signal.locationFound (QDouble.finite 55.75) (QDouble.finite 37.62)
          (QDouble.finite 30)] :=
  ⟨rfl,
   (readServerResponseData_success exampleSuccessBody ""
      [("position", QVariant.map
        [("latitude", QVariant.double 55.75), ("longitude", QVariant.double 37.62),
         ("precision", QVariant.double 30)])]
      [("latitude", QVariant.double 55.75), ("longitude", QVariant.double 37.62),
       ("precision", QVariant.double 30)] (QDouble.finite 55.75) (QDouble.finite 37.62)
      rfl rfl rfl rfl).1,
   (readServerResponseData_success exampleSuccessBody ""
      [("position", QVariant.map
        [("latitude", QVariant.double 55.75), ("longitude", QVariant.double 37.62),
         ("precision", QVariant.double 30)])]
      [("latitude", QVariant.double 55.75), ("longitude", QVariant.double 37.62),
       ("precision", QVariant.double 30)] (QDouble.finite 55.75) (QDouble.finite 37.62)
      rfl rfl rfl rfl).2.2.2.2.2.1 30 rfl⟩

/-- The error string set for a malformed body. -/
theorem readServerResponseData_errorString (data : ReplyData) (es : String)
    (h : malformedBody data = true) :
    (readServerResponseData data es).errorString = protocolErrorString data := by
  unfold malformedBody at h
  unfold readServerResponseData protocolErrorString
  cases hj : data.json with
  | error err => simp
  | ok doc =>
    cases doc with
    | array xs => simp
    | object obj =>
      rw [hj] at h
      simp only [Bool.or_eq_true, List.isEmpty_eq_true, Option.isNone_iff_eq_none] at h
      by_cases hloc : (mapValue obj "position").toMap = []
      · simp [hloc]
      · rcases h with (h | h) | h
        · exact absurd h hloc
        · simp [hloc, h]
        · simp only [List.isEmpty_eq_true, hloc, if_false, h]
          cases (mapValue (mapValue obj "position").toMap "latitude").toDouble data.stringToDouble <;> simp

/-- C11 as stated fails: a body whose position has the latitude `true`, which is not
a number, makes `readServerResponseData` return true and emit
locationFound(1, 37.62, −1). -/
theorem readServerResponseData_booleanLatitude_counterexample :
    mapValue ((mapValue [("position", QVariant.map
        [("latitude", QVariant.bool true), ("longitude", QVariant.double 37.62)])]
        "position").toMap) "latitude" = QVariant.bool true ∧
    (readServerResponseData exampleBooleanLatitudeBody "").ok = true ∧
    (readServerResponseData exampleBooleanLatitudeBody "").emitted
      = [Signal.locationFound (QDouble.finite 1) (QDouble.finite 37.62)
          (QDouble.finite (-1))] :=
  ⟨rfl, rfl, rfl⟩

/-- A body whose latitude and longitude are read is accepted. -/
theorem readServerResponseData_reads (data : ReplyData) (es : String)
    (obj location : QVariantMap) (latitude longitude : QDouble)
    (hjson : data.json = Except.ok (QJsonDocument.object obj))
    (hpos : mapValue obj "position" = QVariant.map location)
    (hlat : (mapValue location "latitude").toDouble data.stringToDouble = some latitude)
    (hlon : (mapValue location "longitude").toDouble data.stringToDouble = some longitude) :
    (readServerResponseData data es).ok = true ∧
    ∃ accuracy, (readServerResponseData data es).emitted
      = [Signal.locationFound latitude longitude accuracy] := by
  have hne : location ≠ [] := by
    intro h0
    rw [h0] at hlat
    simp [mapValue, QVariant.toDouble] at hlat
  unfold readServerResponseData
  simp [hjson, hpos, QVariant.toMap, hne, hlat, hlon]

/-- C11, amended: for every response body that is not valid JSON, is not a JSON object,
has no position member (or one that is not a non-empty object), or whose position has
a latitude or longitude that is missing or not readable as a number by
`QVariant::toDouble` (null, a list, an object, a string that `QString::toDouble` does
not read), `readServerResponseData` returns false, sets the error string (to the
parser's message or to the message of the failed check) and emits nothing; and these
are the only bodies for which it returns false: a latitude or longitude that is a
boolean (read as 1 or 0) or a string that `QString::toDouble` reads is accepted and
emitted. -/
theorem readServerResponseData_protocolError (data : ReplyData) (es : String) :
    (malformedBody data = true →
      (readServerResponseData data es).ok = false ∧
      (readServerResponseData data es).errorString = protocolErrorString data ∧
      (readServerResponseData data es).emitted = []) ∧
    ((readServerResponseData data es).ok = false ↔ malformedBody data = true) ∧
    (∀ parseError : String, data.json = Except.error parseError →
      malformedBody data = true) ∧
    (∀ xs : QVariantList, data.json = Except.ok (QJsonDocument.array xs) →
      malformedBody data = true) ∧
    (∀ obj : QVariantMap, data.json = Except.ok (QJsonDocument.object obj) →
      (mapContains obj "position" = false ∨
        mapValue (mapValue obj "position").toMap "latitude" = QVariant.invalid ∨
        mapValue (mapValue obj "position").toMap "longitude" = QVariant.invalid ∨
        (mapValue (mapValue obj "position").toMap "latitude").toDouble data.stringToDouble = none ∨
        (mapValue (mapValue obj "position").toMap "longitude").toDouble data.stringToDouble = none) →
      malformedBody data = true) ∧
    (∀ (obj location : QVariantMap) (v : QVariant),
      data.json = Except.ok (QJsonDocument.object obj) →
      mapValue obj "position" = QVariant.map location →
      (mapValue location "latitude" = v ∨ mapValue location "longitude" = v) →
      (v = QVariant.null ∨ v = QVariant.invalid ∨ (∃ xs, v = QVariant.list xs) ∨
        (∃ m, v = QVariant.map m) ∨
        (∃ str, v = QVariant.string str ∧ data.stringToDouble str = none)) →
      (readServerResponseData data es).ok = false ∧
      (readServerResponseData data es).emitted = []) ∧
    (∀ (obj location : QVariantMap) (b : Bool) (longitude : QDouble),
      data.json = Except.ok (QJsonDocument.object obj) →
      mapValue obj "position" = QVariant.map location →
      mapValue location "latitude" = QVariant.bool b →
      (mapValue location "longitude").toDouble data.stringToDouble = some longitude →
      (readServerResponseData data es).ok = true ∧
      ∃ accuracy, (readServerResponseData data es).emitted
        = [Signal.locationFound (QDouble.finite (if b then 1 else 0)) longitude accuracy]) ∧
    (∀ (obj location : QVariantMap) (str str2 : String) (latitude longitude : QDouble),
      data.json = Except.ok (QJsonDocument.object obj) →
      mapValue obj "position" = QVariant.map location →
      mapValue location "latitude" = QVariant.string str →
      mapValue location "longitude" = QVariant.string str2 →
      data.stringToDouble str = some latitude →
      data.stringToDouble str2 = some longitude →
      (readServerResponseData data es).ok = true ∧
      ∃ accuracy, (readServerResponseData data es).emitted
        = [Signal.locationFound latitude longitude accuracy]) := by
  refine ⟨?_, ?_, ?_, ?_, ?_, ?_, ?_, ?_⟩
  · intro h
    exact ⟨(readServerResponseData_malformed data es h).1,
      readServerResponseData_errorString data es h,
      (readServerResponseData_malformed data es h).2⟩
  · constructor
    · intro h
      by_contra hm
      have hm2 : malformedBody data = false := by
        cases hb : malformedBody data
        · rfl
        · exact absurd hb hm
      have := (readServerResponseData_wellFormed data es hm2).1
      rw [h] at this
      exact Bool.noConfusion this
    · intro h
      exact (readServerResponseData_malformed data es h).1
  · intro e he
    simp [malformedBody, he]
  · intro xs he
    simp [malformedBody, he]
  · intro obj he h
    simp only [malformedBody, he, Bool.or_eq_true, List.isEmpty_eq_true,
      Option.isNone_iff_eq_none]
    rcases h with h | h | h | h | h
    · left; left
      have hf : List.find? (fun kv => kv.1 == "position") obj = none := by
        rw [List.find?_eq_none]
        intro x hx
        have := List.any_eq_false.mp h x hx
        simpa using this
      simp [mapValue, hf, QVariant.toMap]
    · left; right; rw [h]; rfl
    · right; rw [h]; rfl
    · left; right; exact h
    · right; exact h
  · intro obj location v he hpos hv hkind
    have hnone : v.toDouble data.stringToDouble = none := by
      rcases hkind with h | h | ⟨xs, h⟩ | ⟨m, h⟩ | ⟨str, h, hread⟩
      · rw [h]; rfl
      · rw [h]; rfl
      · rw [h]; rfl
      · rw [h]; rfl
      · rw [h]; exact hread
    have hm : malformedBody data = true := by
      simp only [malformedBody, he, hpos, QVariant.toMap, Bool.or_eq_true,
        List.isEmpty_eq_true, Option.isNone_iff_eq_none]
      rcases hv with h | h
      · left; right; rw [h]; exact hnone
      · right; rw [h]; exact hnone
    exact readServerResponseData_malformed data es hm
  · intro obj location b longitude he hpos hlat hlon
    exact readServerResponseData_reads data es obj location _ longitude he hpos
      (by rw [hlat]; rfl) hlon
  · intro obj location str str2 latitude longitude he hpos hlat hlon hr1 hr2
    exact readServerResponseData_reads data es obj location latitude longitude he hpos
      (by rw [hlat]; exact hr1) (by rw [hlon]; exact hr2)

/-- Witness of C11: a body that is not JSON is refused; a body whose latitude and
longitude are strings that `QString::toDouble` reads is accepted. -/
theorem readServerResponseData_protocolError_witness :
    malformedBody exampleGarbageBody = true ∧
    ((readServerResponseData exampleGarbageBody "").ok = false ∧
      (readServerResponseData exampleGarbageBody "").errorString = "illegal value" ∧
      (readServerResponseData exampleGarbageBody "").emitted = []) ∧
    (exampleStringToDouble "1234.56e-02" = some (QDouble.finite 12.3456) ∧
      exampleStringToDouble " 37.62 " = some (QDouble.finite 37.62)) ∧
    (readServerResponseData exampleStringLatitudeBody "").ok = true :=
  ⟨rfl, (readServerResponseData_protocolError exampleGarbageBody "").1 rfl,
   ⟨rfl, rfl⟩,
   ((readServerResponseData_protocolError exampleStringLatitudeBody "").2.2.2.2.2.2.2
      [("position", QVariant.map
        [("latitude", QVariant.string "1234.56e-02"),
         ("longitude", QVariant.string " 37.62 ")])]
      [("latitude", QVariant.string "1234.56e-02"),
       ("longitude", QVariant.string " 37.62 ")]
      "1234.56e-02" " 37.62 " (QDouble.finite 12.3456) (QDouble.finite 37.62)
      rfl rfl rfl rfl rfl rfl).1⟩

/-! ## Resolution of the request in flight -/

/-- The signals of a completion for the current reply, branch by branch, and the
object afterwards. -/
theorem finished_current (s : Locator) (current : Reply) (reply : FinishedReply) (now : Int)
    (hcur : s.currentReply = some current) (hid : current.id = reply.id) :
    requestOnlineLocationFinished s reply now =
      if current.timedOut then
        ({ s with currentReply := none, replyTimerActive := false },
         [Signal.error "manual timeout"])
      else
        match reply.error with
        | none =>
          ({ s with keyFailureTime := TimeString.empty, currentReply := none,
                    replyTimerActive := false },
           if (readServerResponseData reply.data "").ok then
             (readServerResponseData reply.data "").emitted
           else (readServerResponseData reply.data "").emitted
             ++ [Signal.error (readServerResponseData reply.data "").errorString])
        | some e =>
          ({ checkError s reply.data now with currentReply := none,
                                              replyTimerActive := false },
           [Signal.error e]) := by
  unfold requestOnlineLocationFinished
  rcases hto : current.timedOut <;> rcases herr : reply.error <;>
    by_cases hok : (readServerResponseData reply.data "").ok = true <;>
    simp [hcur, hid, hto, herr, hok]

theorem finished_teardown (s : Locator) (current : Reply) (reply : FinishedReply) (now : Int)
    (hcur : s.currentReply = some current) (hid : current.id = reply.id) :
    (requestOnlineLocationFinished s reply now).1.currentReply = none ∧
    (requestOnlineLocationFinished s reply now).1.replyTimerActive = false := by
  rw [finished_current s current reply now hcur hid]
  rcases hto : current.timedOut <;> rcases herr : reply.error <;> simp

theorem finished_other (s : Locator) (reply : FinishedReply) (now : Int)
    (h : ∀ current : Reply, s.currentReply = some current → current.id ≠ reply.id) :
    requestOnlineLocationFinished s reply now = (s, []) := by
  unfold requestOnlineLocationFinished
  cases hcur : s.currentReply with
  | none => rfl
  | some current => simp [h current hcur]

/-- With no reply held, `findLocation` does not take the "previous request still in
progress" exit: it does not return true without posting. -/
theorem findLocation_idle (s : Locator) (inp : FindInput) (h : s.currentReply = none) :
    ¬ ((findLocation s inp).ret = true ∧ (findLocation s inp).posted = none) := by
  unfold findLocation loadYandexKey
  cases hk : inp.keyFile with
  | none => simp
  | some key =>
    by_cases he : key.isEmpty = true <;>
      by_cases hr : refusesNewTry s.keyFailureTime inp.now = true <;>
      cases hp : inp.postError <;> simp [he, h, hr]

/-- With a reply held and a loadable key, `findLocation` returns true, posts nothing
and changes nothing but the stored key. -/
theorem findLocation_inFlight (s : Locator) (inp : FindInput) (current : Reply)
    (h : s.currentReply = some current) :
    (findLocation s inp).posted = none ∧
    ((findLocation s inp).state = s ∨
      ∃ key : String, (findLocation s inp).state = { s with yandexKey := key }) := by
  unfold findLocation loadYandexKey
  cases hk : inp.keyFile with
  | none => simp
  | some key =>
    by_cases he : key.isEmpty = true
    · simp [he]
    · simp only [he, Bool.false_eq_true, if_false, h, Option.isSome_some, if_true, true_and]
      exact Or.inr ⟨key, rfl⟩

/-- C12: for every completion delivered for the reply currently held, whatever the
branch (manual timeout, success, malformed response, transport error), after
`requestOnlineLocationFinished` no reply is held and the reply timer is stopped, and
a following `findLocation` does not leave through the "request still in progress"
exit (it does not return true without posting); a completion for any other reply
changes nothing and emits nothing. -/
theorem finished_idle (s : Locator) (reply : FinishedReply) (now : Int) :
    (∀ current : Reply, s.currentReply = some current → current.id = reply.id →
      (requestOnlineLocationFinished s reply now).1.currentReply = none ∧
      (requestOnlineLocationFinished s reply now).1.replyTimerActive = false ∧
      ∀ inp : FindInput,
        ¬ ((findLocation (requestOnlineLocationFinished s reply now).1 inp).ret = true ∧
           (findLocation (requestOnlineLocationFinished s reply now).1 inp).posted = none)) ∧
    ((∀ current : Reply, s.currentReply = some current → current.id ≠ reply.id) →
      requestOnlineLocationFinished s reply now = (s, [])) := by
  constructor
  · intro current hcur hid
    have ht := finished_teardown s current reply now hcur hid
    exact ⟨ht.1, ht.2, fun inp => findLocation_idle _ inp ht.1⟩
  · exact finished_other s reply now

/-- Witness of C12: the request of the example, completed with the success body. -/
theorem finished_idle_witness :
    (findLocation (initial true true TimeString.empty)
        ⟨some "key", 1700000000000, 1, false⟩).state.currentReply = some ⟨1, false⟩ ∧
    (requestOnlineLocationFinished
      (findLocation (initial true true TimeString.empty)
        ⟨some "key", 1700000000000, 1, false⟩).state
      ⟨1, none, exampleSuccessBody⟩ 1700000000500).1.currentReply = none ∧
    requestOnlineLocationFinished (initial true true TimeString.empty)
      ⟨7, none, exampleSuccessBody⟩ 1700000000500
      = (initial true true TimeString.empty, []) :=
  ⟨rfl,
   ((finished_idle
      (findLocation (initial true true TimeString.empty)
        ⟨some "key", 1700000000000, 1, false⟩).state
      ⟨1, none, exampleSuccessBody⟩ 1700000000500).1 ⟨1, false⟩ rfl rfl).1,
   (finished_idle (initial true true TimeString.empty)
      ⟨7, none, exampleSuccessBody⟩ 1700000000500).2
      (fun _ h => Option.noConfusion h)⟩

/-- C13: scenario D.  If the timer fires while a reply is held and the network layer
then delivers that reply's completion, whatever error and body it carries, the one
signal emitted is the error "manual timeout", nothing of the object changes except
that no reply is held and the timer is stopped (so the body is not read and the
stored key-failure time is unchanged); a `findLocation` call right
after it, with a loadable key and no key failure that refuses it, posts a new
request and holds the new reply. -/
theorem timeout_then_finished (s : Locator) (current : Reply) (reply : FinishedReply)
    (now : Int) (hcur : s.currentReply = some current) (hid : current.id = reply.id) :
    (requestOnlineLocationFinished (timeoutReply s) reply now).1
      = { s with currentReply := none, replyTimerActive := false } ∧
    (requestOnlineLocationFinished (timeoutReply s) reply now).2
      = [Signal.error "manual timeout"] ∧
    (requestOnlineLocationFinished (timeoutReply s) reply now).1.keyFailureTime
      = s.keyFailureTime ∧
    (requestOnlineLocationFinished (timeoutReply s) reply now).1.currentReply = none ∧
    (requestOnlineLocationFinished (timeoutReply s) reply now).1.replyTimerActive = false ∧
    ∀ (key : String) (now2 : Int) (replyId : Nat) (postError : Bool),
      key.isEmpty = false → refusesNewTry s.keyFailureTime now2 = false →
      (findLocation (requestOnlineLocationFinished (timeoutReply s) reply now).1
          ⟨some key, now2, replyId, postError⟩).posted
        = some (requestDocument { s with yandexKey := key }) ∧
      (findLocation (requestOnlineLocationFinished (timeoutReply s) reply now).1
          ⟨some key, now2, replyId, postError⟩).state.currentReply
        = some ⟨replyId, false⟩ ∧
      (findLocation (requestOnlineLocationFinished (timeoutReply s) reply now).1
          ⟨some key, now2, replyId, postError⟩).ret = !postError := by
  have hts : timeoutReply s
      = { s with currentReply := some { current with timedOut := true },
                 replyTimerActive := false } := by
    unfold timeoutReply
    rw [hcur]
  have hfin : requestOnlineLocationFinished (timeoutReply s) reply now
      = ({ s with currentReply := none, replyTimerActive := false },
         [Signal.error "manual timeout"]) := by
    rw [finished_current (timeoutReply s) { current with timedOut := true } reply now
      (by rw [hts]) hid]
    simp [hts]
  rw [hfin]
  refine ⟨rfl, rfl, rfl, rfl, rfl, ?_⟩
  intro key now2 replyId postError hkey href
  unfold findLocation loadYandexKey
  cases postError <;> simp [hkey, href, requestDocument, wlanAccessPointFields]

/-- Witness of C13: the request of the example times out and is delivered as
cancelled; the next call posts again. -/
theorem timeout_then_finished_witness :
    (findLocation (initial true true TimeString.empty)
        ⟨some "key", 1700000000000, 1, false⟩).state.currentReply = some ⟨1, false⟩ ∧
    (requestOnlineLocationFinished
      (timeoutReply (findLocation (initial true true TimeString.empty)
        ⟨some "key", 1700000000000, 1, false⟩).state)
      ⟨1, some "Operation canceled", exampleGarbageBody⟩ 1700000010000).2
      = [Signal.error "manual timeout"] ∧
    (findLocation
      (requestOnlineLocationFinished
        (timeoutReply (findLocation (initial true true TimeString.empty)
          ⟨some "key", 1700000000000, 1, false⟩).state)
        ⟨1, some "Operation canceled", exampleGarbageBody⟩ 1700000010000).1
      ⟨some "key", 1700000010001, 2, false⟩).state.currentReply = some ⟨2, false⟩ :=
  ⟨rfl,
   (timeout_then_finished
      (findLocation (initial true true TimeString.empty)
        ⟨some "key", 1700000000000, 1, false⟩).state
      ⟨1, false⟩ ⟨1, some "Operation canceled", exampleGarbageBody⟩ 1700000010000
      rfl rfl).2.1,
   ((timeout_then_finished
      (findLocation (initial true true TimeString.empty)
        ⟨some "key", 1700000000000, 1, false⟩).state
      ⟨1, false⟩ ⟨1, some "Operation canceled", exampleGarbageBody⟩ 1700000010000
      rfl rfl).2.2.2.2.2 "key" 1700000010001 2 false (by decide) (by decide)).2.1⟩

/-! ## Single flight -/

/-- What `findLocation` does to the reply slot: it posts nothing and leaves the slot,
or the slot was empty and now holds the posted reply. -/
theorem findLocation_slot (s : Locator) (inp : FindInput) :
    ((findLocation s inp).posted = none ∧
      (findLocation s inp).state.currentReply = s.currentReply) ∨
    (s.currentReply = none ∧ (∃ doc, (findLocation s inp).posted = some doc) ∧
      (findLocation s inp).state.currentReply = some ⟨inp.replyId, false⟩) := by
  unfold findLocation loadYandexKey
  cases hk : inp.keyFile with
  | none => simp
  | some key =>
    by_cases he : key.isEmpty = true
    · simp [he]
    · cases hc : s.currentReply with
      | some current => simp [he, hc]
      | none =>
        by_cases hr : refusesNewTry s.keyFailureTime inp.now = true <;>
          cases hp : inp.postError <;> simp [he, hc, hr]

/-- The replies outstanding in the network layer are exactly the reply held. -/
theorem step_outstanding (w : World) (e : Event)
    (h : w.outstanding = (w.locator.currentReply.map (fun r => r.id)).toList) :
    (step w e).outstanding
      = ((step w e).locator.currentReply.map (fun r => r.id)).toList := by
  cases e with
  | find inp =>
    rcases findLocation_slot w.locator inp with ⟨hp, hs⟩ | ⟨hn, ⟨doc, hp⟩, hs⟩
    · simp [step, hp, hs, h]
    · simp [step, hp, hs, h, hn]
  | finished reply now =>
    cases hc : w.locator.currentReply with
    | none =>
      have hf := finished_other w.locator reply now
        (fun current hcur => by rw [hc] at hcur; exact Option.noConfusion hcur)
      simp [step, hf, h, hc]
    | some current =>
      by_cases hid : current.id = reply.id
      · have ht := finished_teardown w.locator current reply now hc hid
        simp [step, ht.1, h, hc, hid]
      · have hf := finished_other w.locator reply now
          (fun c hcur => by rw [hc] at hcur; cases hcur; exact hid)
        simp [step, hf, h, hc, hid]
  | timeout =>
    unfold step
    split_ifs
    · unfold timeoutReply
      cases hc : w.locator.currentReply with
      | none => simp [h, hc]
      | some current => simp [h, hc]
    · exact h

theorem runEvents_outstanding (events : List Event) : ∀ w : World,
    w.outstanding = (w.locator.currentReply.map (fun r => r.id)).toList →
    (runEvents w events).outstanding
      = ((runEvents w events).locator.currentReply.map (fun r => r.id)).toList := by
  induction events with
  | nil => intro w h; exact h
  | cons e rest ih =>
    intro w h
    exact ih (step w e) (step_outstanding w e h)

/-- C14: single flight.  If a reply is held when `findLocation` is called, the call
posts nothing and leaves the object as it is except for the key it may have loaded:
the reply held, the timer and the stored key-failure time are unchanged.  Hence in
every state reached from the constructor by calls of `findLocation`, deliveries of
replies and timer firings, the replies posted and not yet delivered are at most one,
namely the reply held. -/
theorem singleFlight (s : Locator) (inp : FindInput) (current : Reply)
    (h : s.currentReply = some current) :
    ((findLocation s inp).posted = none ∧
      (findLocation s inp).state.currentReply = some current ∧
      (findLocation s inp).state.replyTimerActive = s.replyTimerActive ∧
      (findLocation s inp).state.keyFailureTime = s.keyFailureTime ∧
      ((findLocation s inp).state = s ∨
        ∃ key : String, (findLocation s inp).state = { s with yandexKey := key })) ∧
    ∀ (lacf ipf : Bool) (k : TimeString) (events : List Event),
      (runEvents (initialWorld lacf ipf k) events).outstanding.length ≤ 1 ∧
      (runEvents (initialWorld lacf ipf k) events).outstanding
        = ((runEvents (initialWorld lacf ipf k) events).locator.currentReply.map
            (fun r => r.id)).toList := by
  constructor
  · have hf := findLocation_inFlight s inp current h
    refine ⟨hf.1, ?_, ?_, ?_, hf.2⟩
    · rcases hf.2 with h2 | ⟨key, h2⟩ <;> rw [h2] <;> exact h
    · rcases hf.2 with h2 | ⟨key, h2⟩ <;> rw [h2]
    · rcases hf.2 with h2 | ⟨key, h2⟩ <;> rw [h2]
  · intro lacf ipf k events
    have ho := runEvents_outstanding events (initialWorld lacf ipf k) rfl
    refine ⟨?_, ho⟩
    rw [ho]
    cases (runEvents (initialWorld lacf ipf k) events).locator.currentReply <;> simp

/-- Witness of C14: a second call while the request of the example is in flight. -/
theorem singleFlight_witness :
    (findLocation (initial true true TimeString.empty)
        ⟨some "key", 1700000000000, 1, false⟩).state.currentReply = some ⟨1, false⟩ ∧
    (findLocation
      (findLocation (initial true true TimeString.empty)
        ⟨some "key", 1700000000000, 1, false⟩).state
      ⟨some "key", 1700000001000, 2, false⟩).posted = none ∧
    (runEvents (initialWorld true true TimeString.empty)
      [Event.find ⟨some "key", 1700000000000, 1, false⟩,
       Event.find ⟨some "key", 1700000001000, 2, false⟩]).outstanding.length ≤ 1 :=
  ⟨rfl,
   (singleFlight
      (findLocation (initial true true TimeString.empty)
        ⟨some "key", 1700000000000, 1, false⟩).state
      ⟨some "key", 1700000001000, 2, false⟩ ⟨1, false⟩ rfl).1.1,
   ((singleFlight
      (findLocation (initial true true TimeString.empty)
        ⟨some "key", 1700000000000, 1, false⟩).state
      ⟨some "key", 1700000001000, 2, false⟩ ⟨1, false⟩ rfl).2 true true TimeString.empty
      [Event.find ⟨some "key", 1700000000000, 1, false⟩,
       Event.find ⟨some "key", 1700000001000, 2, false⟩]).1⟩

/-! ## The posted document -/

theorem requestDocument_eq (s : Locator) :
    requestDocument s = wireDocument s.yandexKey
      ((s.wlanServices.filter usableService).map (fun sv => QVariant.map (wifiEntry sv))) := by
  unfold requestDocument wireDocument
  rw [wlanAccessPointFields_eq]
  cases hl : (s.wlanServices.filter usableService).map (fun sv => QVariant.map (wifiEntry sv)) with
  | nil => simp +decide [mapInsert]
  | cons x rest => simp +decide [mapInsert]

/-- What `findLocation` posts, when it posts. -/
theorem findLocation_posted (s : Locator) (inp : FindInput) (doc : QVariantMap)
    (h : (findLocation s inp).posted = some doc) :
    inp.keyFile = some (findLocation s inp).state.yandexKey ∧
    doc = requestDocument { s with yandexKey := (findLocation s inp).state.yandexKey } := by
  revert h
  unfold findLocation loadYandexKey
  cases hk : inp.keyFile with
  | none => simp
  | some key =>
    by_cases he : key.isEmpty = true
    · simp [he]
    · cases hc : s.currentReply with
      | some current => simp [he, hc]
      | none =>
        by_cases hr : refusesNewTry s.keyFailureTime inp.now = true <;>
          cases hp : inp.postError <;> simp [he, hc, hr] <;> intro h <;> exact h.symm

/-- C15 as stated fails: the scheduler issues a payload with the members cellTowers
and fallbacks, and the document that `findLocation` posts next has the single member
common: no cell towers, no fallbacks. -/
theorem posted_document_counterexample :
    exampleIssued.query.1 = QDateTime.utc 1700000005000 ∧
    mapContains exampleIssued.query.2 "cellTowers" = true ∧
    mapContains exampleIssued.query.2 "fallbacks" = true ∧
    (findLocation exampleIssued.state ⟨some "key", 1700000005002, 1, false⟩).ret = true ∧
    (findLocation exampleIssued.state ⟨some "key", 1700000005002, 1, false⟩).posted.map
        (fun doc => doc.map Prod.fst) = some ["common"] ∧
    (findLocation exampleIssued.state ⟨some "key", 1700000005002, 1, false⟩).posted.map
        (fun doc => mapContains doc "cellTowers") = some false := by
  decide

/-- C15, amended: for every `findLocation` call that posts a request, the document
posted consists of the member common, with the static version "1.0" and the key just
loaded, plus the member wifi_networks with the filtered wireless access point list;
wifi_networks is left out exactly when the filtered list is empty; none of the
members of the scheduler's payload (cell towers, carrier fields, fallbacks) is in
the document. -/
theorem posted_document (s : Locator) (inp : FindInput) (doc : QVariantMap)
    (h : (findLocation s inp).posted = some doc) :
    inp.keyFile = some (findLocation s inp).state.yandexKey ∧
    doc = wireDocument (findLocation s inp).state.yandexKey
      ((s.wlanServices.filter usableService).map (fun sv => QVariant.map (wifiEntry sv))) ∧
    mapContains doc "common" = true ∧
    mapContains doc "wifi_networks" = !(s.wlanServices.filter usableService).isEmpty ∧
    (∀ k ∈ schedulerKeys, mapContains doc k = false) := by
  have hp := findLocation_posted s inp doc h
  have hd : doc = wireDocument (findLocation s inp).state.yandexKey
      ((s.wlanServices.filter usableService).map (fun sv => QVariant.map (wifiEntry sv))) := by
    rw [hp.2, requestDocument_eq]
  refine ⟨hp.1, hd, ?_, ?_, ?_⟩
  · rw [hd]
    simp [wireDocument, mapContains]
  · rw [hd]
    cases hl : s.wlanServices.filter usableService with
    | nil => simp +decide [wireDocument, mapContains]
    | cons x rest => simp +decide [wireDocument, mapContains]
  · intro k hk
    rw [hd]
    simp only [schedulerKeys, List.mem_cons, List.mem_singleton, List.not_mem_nil,
      or_false] at hk
    cases hl : s.wlanServices.filter usableService with
    | nil =>
      rcases hk with hk | hk | hk | hk | hk | hk <;> subst hk <;>
        simp +decide [wireDocument, mapContains]
    | cons x rest =>
      rcases hk with hk | hk | hk | hk | hk | hk <;> subst hk <;>
        simp +decide [wireDocument, mapContains]

/-- Witness of C15: the call of the example, with no wireless services known. -/
theorem posted_document_witness :
    (findLocation (initial true true TimeString.empty)
        ⟨some "key", 1700000000000, 1, false⟩).posted
      = some [("common", QVariant.map [("api_key", QVariant.string "key"),
                                       ("version", QVariant.string "1.0")])] ∧
    mapContains [("common", QVariant.map [("api_key", QVariant.string "key"),
                                          ("version", QVariant.string "1.0")])]
      "wifi_networks" = false :=
  ⟨rfl,
   (posted_document (initial true true TimeString.empty)
      ⟨some "key", 1700000000000, 1, false⟩
      [("common", QVariant.map [("api_key", QVariant.string "key"),
                                ("version", QVariant.string "1.0")])] rfl).2.2.2.1⟩

/-! ## The cell ids of a payload -/

theorem mem_distinctInOrder (l : List Nat) (x : Nat) : x ∈ distinctInOrder l ↔ x ∈ l := by
  induction l with
  | nil => simp [distinctInOrder]
  | cons y ys ih =>
    simp only [distinctInOrder, List.mem_cons, List.mem_filter, ih, bne_iff_ne, ne_eq]
    constructor
    · rintro (h | ⟨h, _⟩)
      · exact Or.inl h
      · exact Or.inr h
    · intro h
      by_cases hxy : x = y
      · exact Or.inl hxy
      · rcases h with h | h
        · exact Or.inl h
        · exact Or.inr ⟨h, hxy⟩

theorem nodup_distinctInOrder (l : List Nat) : (distinctInOrder l).Nodup := by
  induction l with
  | nil => simp [distinctInOrder]
  | cons y ys ih =>
    simp only [distinctInOrder, List.nodup_cons, List.mem_filter, bne_iff_ne, ne_eq,
      not_true_eq_false, and_false, not_false_eq_true, true_and]
    exact ih.filter _

/-- The loop of `cellIdsFromQueryData`, started with the ids already collected. -/
theorem cellIds_foldl (xs : List Nat) : ∀ acc : List Nat,
    xs.foldl (fun cellIds cellId =>
        if cellId ≠ 0 ∧ ¬ cellIds.contains cellId then cellIds ++ [cellId] else cellIds) acc
      = acc ++ (distinctInOrder (xs.filter (fun y => y != 0))).filter
          (fun y => decide (y ∉ acc)) := by
  induction xs with
  | nil => intro acc; simp [distinctInOrder]
  | cons x rest ih =>
    intro acc
    rw [List.foldl_cons]
    by_cases h0 : x = 0
    · subst h0
      simp only [ne_eq, not_true_eq_false, false_and, if_false]
      rw [ih acc]
      simp
    · have hf : List.filter (fun y => y != 0) (x :: rest)
          = x :: List.filter (fun y => y != 0) rest := by
        simp [List.filter_cons, h0]
      have hD : distinctInOrder (x :: List.filter (fun y => y != 0) rest)
          = x :: (distinctInOrder (List.filter (fun y => y != 0) rest)).filter
              (fun y => y != x) := rfl
      by_cases hm : x ∈ acc
      · have hstep : (if x ≠ 0 ∧ ¬ (acc.contains x) = true then acc ++ [x] else acc) = acc := by
          simp [hm]
        rw [hstep, ih acc, hf, hD, List.filter_cons]
        have hx : decide (x ∉ acc) = false := by simp [hm]
        rw [hx]
        simp only [Bool.false_eq_true, if_false, List.filter_filter]
        congr 1
        apply List.filter_congr
        intro y _
        by_cases hy : y ∈ acc
        · simp [hy]
        · have hyx : y ≠ x := fun h => hy (h ▸ hm)
          simp [hy, hyx]
      · have hstep : (if x ≠ 0 ∧ ¬ (acc.contains x) = true then acc ++ [x] else acc)
            = acc ++ [x] := by
          simp [hm, h0]
        rw [hstep, ih (acc ++ [x]), hf, hD, List.filter_cons]
        have hx : decide (x ∉ acc) = true := by simp [hm]
        rw [hx]
        simp only [if_true, List.filter_filter, List.append_assoc, List.singleton_append]
        congr 2
        apply List.filter_congr
        intro y _
        by_cases hy : y ∈ acc <;> by_cases hyx : y = x <;> simp [hy, hyx]

theorem cellIdsFromQueryData_eq (queryData : QVariantMap) :
    cellIdsFromQueryData queryData
      = distinctInOrder ((rawCellIds queryData).filter (fun y => y != 0)) := by
  have h := cellIds_foldl (rawCellIds queryData) []
  simp only [List.nil_append, List.not_mem_nil, not_false_eq_true, decide_True,
    List.filter_true] at h
  rw [← h]
  unfold cellIdsFromQueryData rawCellIds
  rw [List.foldl_map]

/-- C16 as stated fails: two payloads with the same cell ids, 1 and 2, in a different
order give newCells = true. -/
theorem newCells_order_counterexample :
    rawCellIds examplePayload12 = [1, 2] ∧ rawCellIds examplePayload21 = [2, 1] ∧
    (∀ x : Nat, x ∈ rawCellIds examplePayload12 ↔ x ∈ rawCellIds examplePayload21) ∧
    newCells examplePayload21 (QDateTime.utc 1700000000000, examplePayload12) = true := by
  refine ⟨by decide, by decide, ?_, by decide⟩
  intro x
  have h1 : rawCellIds examplePayload12 = [1, 2] := by decide
  have h2 : rawCellIds examplePayload21 = [2, 1] := by decide
  rw [h1, h2]
  simp only [List.mem_cons, List.mem_singleton, List.not_mem_nil, or_false]
  exact Or.comm

/-- C16, amended: for every previous payload and candidate payload, newCells is true if
and only if the list of the distinct non-zero cell ids, in the order of their first
occurrence among the towers, differs between the two payloads.  So newCells is true
whenever the sets of non-zero cell ids differ, and when newCells is false the sets
are the same; the same ids in a different order of first occurrence give
newCells = true. -/
theorem newCells_iff (map : QVariantMap) (oldQuery : QDateTime × QVariantMap) :
    (newCells map oldQuery = true ↔
      distinctInOrder ((rawCellIds oldQuery.2).filter (fun y => y != 0))
        ≠ distinctInOrder ((rawCellIds map).filter (fun y => y != 0))) ∧
    ((∃ x : Nat, x ≠ 0 ∧ ¬ (x ∈ rawCellIds oldQuery.2 ↔ x ∈ rawCellIds map)) →
      newCells map oldQuery = true) ∧
    (newCells map oldQuery = false →
      ∀ x : Nat, x ≠ 0 → (x ∈ rawCellIds oldQuery.2 ↔ x ∈ rawCellIds map)) ∧
    (∀ x : Nat, x ∈ cellIdsFromQueryData map ↔ (x ≠ 0 ∧ x ∈ rawCellIds map)) ∧
    (cellIdsFromQueryData map).Nodup := by
  have hmem : ∀ (q : QVariantMap) (x : Nat),
      x ∈ cellIdsFromQueryData q ↔ (x ≠ 0 ∧ x ∈ rawCellIds q) := by
    intro q x
    rw [cellIdsFromQueryData_eq, mem_distinctInOrder, List.mem_filter]
    simp only [bne_iff_ne, ne_eq]
    exact And.comm
  have hiff : newCells map oldQuery = true ↔
      cellIdsFromQueryData oldQuery.2 ≠ cellIdsFromQueryData map := by
    unfold newCells
    simp
  have hfalse : newCells map oldQuery = false →
      ∀ x : Nat, x ≠ 0 → (x ∈ rawCellIds oldQuery.2 ↔ x ∈ rawCellIds map) := by
    intro hn x hx
    have heq : cellIdsFromQueryData oldQuery.2 = cellIdsFromQueryData map := by
      by_contra hne
      have := hiff.mpr hne
      rw [hn] at this
      exact Bool.noConfusion this
    have h1 := hmem oldQuery.2 x
    have h2 := hmem map x
    rw [heq] at h1
    constructor
    · intro hin
      exact (h2.mp (h1.mpr ⟨hx, hin⟩)).2
    · intro hin
      exact (h1.mp (h2.mpr ⟨hx, hin⟩)).2
  refine ⟨?_, ?_, hfalse, hmem map, ?_⟩
  · rw [hiff, cellIdsFromQueryData_eq, cellIdsFromQueryData_eq]
  · rintro ⟨x, hx, hdiff⟩
    cases hn : newCells map oldQuery
    · exact absurd (hfalse hn x hx) hdiff
    · rfl
  · rw [cellIdsFromQueryData_eq]
    exact nodup_distinctInOrder _

/-- Witness of C16: the towers 1 and 2 against the single tower 1. -/
theorem newCells_iff_witness :
    (∃ x : Nat, x ≠ 0 ∧ ¬ (x ∈ rawCellIds examplePayload12 ↔
      x ∈ rawCellIds [("cellTowers", QVariant.list
        [QVariant.map [("cellId", QVariant.int 1)]])])) ∧
    newCells [("cellTowers", QVariant.list [QVariant.map [("cellId", QVariant.int 1)]])]
      (QDateTime.utc 1700000000000, examplePayload12) = true :=
  ⟨⟨2, by decide, by decide⟩,
   (newCells_iff [("cellTowers", QVariant.list [QVariant.map [("cellId", QVariant.int 1)]])]
      (QDateTime.utc 1700000000000, examplePayload12)).2.1 ⟨2, by decide, by decide⟩⟩

/-! ## The history of send times -/

theorem buildLocationQuery_history (s : Locator) (cells : List CellPositioningData)
    (oldQuery : QDateTime × QVariantMap) (currDt currMSecs : Int) :
    ((buildLocationQuery s cells oldQuery currDt currMSecs).query = noQuery ∧
      (∀ a b c d, (buildLocationQuery s cells oldQuery currDt currMSecs).log
        ≠ LogLine.performing a b c d) ∧
      (buildLocationQuery s cells oldQuery currDt currMSecs).state.queryTimestamps
        = s.queryTimestamps) ∨
    ((buildLocationQuery s cells oldQuery currDt currMSecs).query.1 = QDateTime.utc currDt ∧
      (∃ a b c d, (buildLocationQuery s cells oldQuery currDt currMSecs).log
        = LogLine.performing a b c d) ∧
      (buildLocationQuery s cells oldQuery currDt currMSecs).state.queryTimestamps
        = pushTimestamp s.queryTimestamps currMSecs) := by
  unfold buildLocationQuery
  simp only []
  split_ifs <;> simp

theorem pushTimestamp_eq (ts : List Int) (t : Int) (h : ts.length ≤ 10) :
    pushTimestamp ts t = (t :: ts).take 10 := by
  unfold pushTimestamp REQUEST_TIMESTAMPS_TO_TRACK
  simp only [List.length_cons]
  split_ifs with h1
  · have hl : ts.length = 10 := by omega
    rw [List.dropLast_eq_take]
    simp [hl]
  · rw [List.take_of_length_le]
    simp only [List.length_cons]
    omega

theorem pushTimestamp_length (ts : List Int) (t : Int) (h : ts.length ≤ 10) :
    (pushTimestamp ts t).length ≤ 10 := by
  rw [pushTimestamp_eq ts t h, List.length_take]
  omega

theorem callResult_history_length (s : Locator) (c : Call) (h : s.queryTimestamps.length ≤ 10) :
    (callResult s c).state.queryTimestamps.length ≤ 10 := by
  unfold callResult
  rcases buildLocationQuery_history { s with simManager := c.simManager } c.cells c.oldQuery
    c.currDt c.currMSecs with ⟨_, _, h1⟩ | ⟨_, _, h1⟩
  · rw [h1]; exact h
  · rw [h1]; exact pushTimestamp_length _ _ h

theorem run_history_length (calls : List Call) : ∀ s : Locator,
    s.queryTimestamps.length ≤ 10 → (run s calls).queryTimestamps.length ≤ 10 := by
  induction calls with
  | nil => intro s h; exact h
  | cons c rest ih =>
    intro s h
    exact ih (callResult s c).state (callResult_history_length s c h)

/-- C17: in every state reached from the constructor by calls of `buildLocationQuery`,
a further call changes the history of send times only when it issues: when it returns
the empty pair (no data, postponed, no condition true, throttled) the history is
unchanged, and when it issues (returns the current time and logs "performing") the
new history is the current time followed by the previous entries, cut to 10 entries
in total; the history never holds more than 10 entries. -/
theorem history_frame (lacf ipf : Bool) (k : TimeString) (calls : List Call) (c : Call) :
    ((callResult (run (initial lacf ipf k) calls) c).query = noQuery →
      (callResult (run (initial lacf ipf k) calls) c).state.queryTimestamps
        = (run (initial lacf ipf k) calls).queryTimestamps) ∧
    ((∀ a b c' d, (callResult (run (initial lacf ipf k) calls) c).log
        ≠ LogLine.performing a b c' d) →
      (callResult (run (initial lacf ipf k) calls) c).state.queryTimestamps
        = (run (initial lacf ipf k) calls).queryTimestamps) ∧
    ((callResult (run (initial lacf ipf k) calls) c).query ≠ noQuery →
      (callResult (run (initial lacf ipf k) calls) c).query.1 = QDateTime.utc c.currDt ∧
      (callResult (run (initial lacf ipf k) calls) c).state.queryTimestamps
        = (c.currMSecs :: (run (initial lacf ipf k) calls).queryTimestamps).take 10) ∧
    (run (initial lacf ipf k) calls).queryTimestamps.length ≤ 10 ∧
    (callResult (run (initial lacf ipf k) calls) c).state.queryTimestamps.length ≤ 10 := by
  have hlen : (run (initial lacf ipf k) calls).queryTimestamps.length ≤ 10 :=
    run_history_length calls (initial lacf ipf k) (by simp [initial])
  have hcases := buildLocationQuery_history
    { run (initial lacf ipf k) calls with simManager := c.simManager } c.cells c.oldQuery
    c.currDt c.currMSecs
  refine ⟨?_, ?_, ?_, hlen, callResult_history_length _ c hlen⟩
  · intro hq
    rcases hcases with ⟨_, _, h1⟩ | ⟨h2, _, _⟩
    · exact h1
    · unfold callResult at hq
      rw [hq] at h2
      simp [noQuery] at h2
  · intro hl
    rcases hcases with ⟨_, _, h1⟩ | ⟨_, ⟨a, b, c', d, h2⟩, _⟩
    · exact h1
    · exact absurd h2 (hl a b c' d)
  · intro hq
    rcases hcases with ⟨h1, _, _⟩ | ⟨h2, _, h3⟩
    · exact absurd h1 hq
    · refine ⟨h2, ?_⟩
      unfold callResult
      rw [h3]
      exact pushTimestamp_eq _ _ hlen

/-- Witness of C17: the two calls of scenario A; the second issues and records its
time. -/
theorem history_frame_witness :
    (callResult (run (initial true true TimeString.empty)
        [⟨none, [exampleCell], noQuery, 1700000000000, 1700000000001⟩])
        ⟨none, [exampleCell], noQuery, 1700000005000, 1700000005001⟩).query ≠ noQuery ∧
    (callResult (run (initial true true TimeString.empty)
        [⟨none, [exampleCell], noQuery, 1700000000000, 1700000000001⟩])
        ⟨none, [exampleCell], noQuery, 1700000005000, 1700000005001⟩).state.queryTimestamps
      = [1700000005001] :=
  ⟨fun h => absurd (congrArg (fun q => q.1.isNull) h) (by decide),
   ((history_frame true true TimeString.empty
      [⟨none, [exampleCell], noQuery, 1700000000000, 1700000000001⟩]
      ⟨none, [exampleCell], noQuery, 1700000005000, 1700000005001⟩).2.2.1
      (fun h => absurd (congrArg (fun q => q.1.isNull) h) (by decide))).2⟩

/-! ## The back-off update -/

theorem updateBackOff_cases (f : Nat) (q : ℚ) (h1 : 1 ≤ f) (h2 : f ≤ 64) :
    (q > 6 → updateBackOff f q = max 1 (f / 2)) ∧
    (q < 4 → updateBackOff f q = min 64 (2 * f)) ∧
    (4 ≤ q ∧ q ≤ 6 → updateBackOff f q = f) := by
  refine ⟨?_, ?_, ?_⟩
  · intro hq
    have hc : q > 6 ∨ f > 64 := Or.inl hq
    unfold updateBackOff
    rw [if_pos hc]
    split_ifs <;> omega
  · intro hq
    have hc : ¬ (q > 6 ∨ f > 64) := by
      rintro (h | h)
      · linarith
      · omega
    unfold updateBackOff
    rw [if_neg hc, if_pos hq]
    split_ifs <;> omega
  · rintro ⟨hq4, hq6⟩
    have hc : ¬ (q > 6 ∨ f > 64) := by
      rintro (h | h)
      · linarith
      · omega
    have hc4 : ¬ q < 4 := by linarith
    unfold updateBackOff
    rw [if_neg hc, if_neg hc4]

/-- A call that goes through the back-off update leaves the updated factor and the
interval computed from it. -/
theorem buildLocationQuery_updated (s : Locator) (cells : List CellPositioningData)
    (oldQuery : QDateTime × QVariantMap) (currDt currMSecs : Int)
    (h : (buildLocationQuery s cells oldQuery currDt currMSecs).log.updatedBackOff = true) :
    (buildLocationQuery s cells oldQuery currDt currMSecs).state.backOffFactor
      = updateBackOff s.backOffFactor (minutesPerQuery s.queryTimestamps) ∧
    (buildLocationQuery s cells oldQuery currDt currMSecs).state.adaptiveInterval
      = adaptiveIntervalFor (updateBackOff s.backOffFactor (minutesPerQuery s.queryTimestamps)) := by
  revert h
  unfold buildLocationQuery
  simp only []
  split_ifs <;> simp [LogLine.updatedBackOff]

/-- C18: for every eligible decision (a call with cell tower fields, the wait for
wireless data over, and one of firstTimeQuery, intervalExceeded, moreInfo, newCells
true) with a factor f in [1, 64] and a history h, the factor after the call, issued
or throttled, is the update of f: with fewer than 3 entries in h the rate is 6 minutes
per query and the factor stays f; otherwise the rate is (first − last entry of h) /
60000 / |h|, the first entry being the newest, and the new factor is max(1, f/2) in
integer division when the rate is above 6, min(64, 2·f) when it is below 4, and f
when it is between 4 and 6; the interval becomes 60000 + 10000 × the new factor.  A
decision that is not eligible leaves the factor as it is.  The rate is compared as
the exact quotient. -/
theorem backOff_update (f : Nat) (h : List Int) (h1 : 1 ≤ f) (h2 : f ≤ 64) :
    (h.length < 3 →
      minutesPerQuery h = 6 ∧ updateBackOff f (minutesPerQuery h) = f) ∧
    (3 ≤ h.length →
      minutesPerQuery h
        = ((h.headD 0 - h.getLastD 0 : Int) : ℚ) / 60000 / (h.length : ℚ) ∧
      (minutesPerQuery h > 6 → updateBackOff f (minutesPerQuery h) = max 1 (f / 2)) ∧
      (minutesPerQuery h < 4 → updateBackOff f (minutesPerQuery h) = min 64 (2 * f)) ∧
      (4 ≤ minutesPerQuery h ∧ minutesPerQuery h ≤ 6 →
        updateBackOff f (minutesPerQuery h) = f)) ∧
    (∀ (s : Locator) (cells : List CellPositioningData)
        (oldQuery : QDateTime × QVariantMap) (currDt currMSecs : Int),
      s.backOffFactor = f → s.queryTimestamps = h →
      (buildLocationQuery s cells oldQuery currDt currMSecs).log.updatedBackOff = true →
      (buildLocationQuery s cells oldQuery currDt currMSecs).state.backOffFactor
        = updateBackOff f (minutesPerQuery h)) ∧
    (∀ (s : Locator) (cells : List CellPositioningData)
        (oldQuery : QDateTime × QVariantMap) (currDt currMSecs : Int),
      s.backOffFactor = f → s.queryTimestamps = h →
      cellTowerFields cells ≠ [] → s.waitForWlanInfo = false →
      (firstTimeQuery oldQuery = true ∨ intervalExceeded s oldQuery currDt = true ∨
        moreInfo (candidatePayload s cells) oldQuery = true ∨
        newCells (candidatePayload s cells) oldQuery = true) →
      (buildLocationQuery s cells oldQuery currDt currMSecs).state.backOffFactor
        = updateBackOff f (minutesPerQuery h) ∧
      (buildLocationQuery s cells oldQuery currDt currMSecs).state.adaptiveInterval
        = 60000 + 10000 * (updateBackOff f (minutesPerQuery h) : Int) ∧
      (buildLocationQuery s cells oldQuery currDt currMSecs).log.updatedBackOff = true) ∧
    (∀ (s : Locator) (cells : List CellPositioningData)
        (oldQuery : QDateTime × QVariantMap) (currDt currMSecs : Int),
      s.backOffFactor = f →
      cellTowerFields cells ≠ [] → s.waitForWlanInfo = false →
      ¬ (firstTimeQuery oldQuery = true ∨ intervalExceeded s oldQuery currDt = true ∨
        moreInfo (candidatePayload s cells) oldQuery = true ∨
        newCells (candidatePayload s cells) oldQuery = true) →
      (buildLocationQuery s cells oldQuery currDt currMSecs).state.backOffFactor = f ∧
      (buildLocationQuery s cells oldQuery currDt currMSecs).log.updatedBackOff = false) := by
  have hc := updateBackOff_cases f (minutesPerQuery h) h1 h2
  refine ⟨?_, ?_, ?_, ?_, ?_⟩
  · intro hl
    have hm : minutesPerQuery h = 6 := by
      unfold minutesPerQuery
      rw [if_pos hl]
    refine ⟨hm, ?_⟩
    rw [hm]
    exact (updateBackOff_cases f 6 h1 h2).2.2 ⟨by norm_num, le_refl _⟩
  · intro hl
    refine ⟨?_, hc.1, hc.2.1, hc.2.2⟩
    have hnl : ¬ h.length < 3 := by omega
    unfold minutesPerQuery deltaMsecs
    rw [if_neg hnl, if_neg hnl]
    norm_num
  · intro s cells oldQuery currDt currMSecs hf hh hlog
    have hu := (buildLocationQuery_updated s cells oldQuery currDt currMSecs hlog).1
    rw [hf, hh] at hu
    exact hu
  · intro s cells oldQuery currDt currMSecs hf hh hmap hflag helig
    have hE : (firstTimeQuery oldQuery || intervalExceeded s oldQuery currDt ||
        moreInfo (candidatePayload s cells) oldQuery ||
        newCells (candidatePayload s cells) oldQuery) = true := by
      simp only [Bool.or_eq_true]
      rcases helig with h | h | h | h
      · exact Or.inl (Or.inl (Or.inl h))
      · exact Or.inl (Or.inl (Or.inr h))
      · exact Or.inl (Or.inr h)
      · exact Or.inr h
    have hu := (buildLocationQuery_eligible s cells oldQuery currDt currMSecs hmap hflag).1 hE
    rw [hf, hh] at hu
    have hb := updateBackOff_bounds f (minutesPerQuery h) h1 h2
    refine ⟨hu.1, ?_, hu.2.2⟩
    rw [hu.2.1]
    exact adaptiveIntervalFor_eq _ hb.2
  · intro s cells oldQuery currDt currMSecs hf hmap hflag hnot
    have hE : (firstTimeQuery oldQuery || intervalExceeded s oldQuery currDt ||
        moreInfo (candidatePayload s cells) oldQuery ||
        newCells (candidatePayload s cells) oldQuery) = false := by
      cases hb : (firstTimeQuery oldQuery || intervalExceeded s oldQuery currDt ||
        moreInfo (candidatePayload s cells) oldQuery ||
        newCells (candidatePayload s cells) oldQuery)
      · rfl
      · exfalso
        apply hnot
        simp only [Bool.or_eq_true] at hb
        rcases hb with ((h | h) | h) | h
        · exact Or.inl h
        · exact Or.inr (Or.inl h)
        · exact Or.inr (Or.inr (Or.inl h))
        · exact Or.inr (Or.inr (Or.inr h))
    have hu := (buildLocationQuery_eligible s cells oldQuery currDt currMSecs hmap hflag).2 hE
    rw [hu.1, hu.2]
    exact ⟨hf, rfl⟩

/-- Witness of C18: factor 8 and three sends 3 minutes apart, a rate of 2 minutes per
query.  The call comes one second after the last send, with the same cell and a SIM
that has become valid: it is eligible on moreInfo alone, it is throttled (the pair
returned is empty), and the factor is 16 afterwards. -/
theorem backOff_update_witness :
    ((1 : Nat) ≤ 8 ∧ (8 : Nat) ≤ 64 ∧ 3 ≤ exampleBusy.queryTimestamps.length ∧
      exampleBusy.backOffFactor = 8 ∧ cellTowerFields [exampleCell] ≠ [] ∧
      exampleBusy.waitForWlanInfo = false ∧
      moreInfo (candidatePayload exampleBusy [exampleCell]) examplePrevious = true ∧
      intervalExceeded exampleBusy examplePrevious 1700000001000 = false) ∧
    minutesPerQuery exampleBusy.queryTimestamps = 2 ∧
    updateBackOff 8 (minutesPerQuery exampleBusy.queryTimestamps) = 16 ∧
    (buildLocationQuery exampleBusy [exampleCell] examplePrevious
        1700000001000 1700000001001).state.backOffFactor = 16 ∧
    (buildLocationQuery exampleBusy [exampleCell] examplePrevious
        1700000001000 1700000001001).state.adaptiveInterval = 220000 ∧
    (buildLocationQuery exampleBusy [exampleCell] examplePrevious
        1700000001000 1700000001001).query = noQuery := by
  have hmap : cellTowerFields [exampleCell] ≠ [] :=
    fun h => absurd (congrArg List.isEmpty h) (by decide)
  have hw := (backOff_update 8 exampleBusy.queryTimestamps (by decide) (by decide)).2.1
    (by decide)
  have hm : minutesPerQuery exampleBusy.queryTimestamps = 2 := by
    rw [hw.1]
    norm_num [exampleBusy]
  have h16 : updateBackOff 8 (minutesPerQuery exampleBusy.queryTimestamps) = 16 := by
    rw [hw.2.2.1 (by rw [hm]; norm_num)]
    decide
  have hcall := (backOff_update 8 exampleBusy.queryTimestamps (by decide)
    (by decide)).2.2.2.1 exampleBusy [exampleCell] examplePrevious 1700000001000
    1700000001001 rfl rfl hmap rfl (Or.inr (Or.inr (Or.inl (by decide))))
  rw [h16] at hcall
  have hq := buildLocationQuery_query exampleBusy [exampleCell] examplePrevious
    1700000001000 1700000001001 hmap rfl
  have hint : intervalExceeded exampleBusy examplePrevious 1700000001000 = false := by
    decide
  have hf8 : exampleBusy.backOffFactor = 8 := rfl
  rw [hf8, h16, hint] at hq
  refine ⟨⟨by decide, by decide, by decide, rfl, hmap, rfl, by decide, hint⟩, hm, h16,
    hcall.1, ?_, ?_⟩
  · rw [hcall.2.1]
    norm_num
  · rw [hq]
    simp

/-! ## The wait for wireless data -/

/-- What a call does with the static `waitForWlanInfo`, and when it logs
"postponing". -/
theorem callResult_wait (s : Locator) (c : Call) :
    ((callResult s c).log = LogLine.postponing ↔
      (s.waitForWlanInfo = true ∧ cellTowerFields c.cells ≠ [])) ∧
    ((callResult s c).log = LogLine.postponing → (callResult s c).query = noQuery) ∧
    (callResult s c).state.waitForWlanInfo
      = (s.waitForWlanInfo && (cellTowerFields c.cells).isEmpty) := by
  by_cases hmap : cellTowerFields c.cells = []
  · have hr : callResult s c
        = { query := noQuery, state := { s with simManager := c.simManager },
            log := LogLine.noFieldData } := by
      unfold callResult buildLocationQuery
      simp [hmap, mapUnite]
    rw [hr]
    simp [hmap]
  · obtain ⟨l, hl⟩ := cellTowerFields_shape c.cells hmap
    cases hflag : s.waitForWlanInfo
    · unfold callResult buildLocationQuery
      simp only [hl, hflag]
      split_ifs <;> simp_all [mapUnite, mapInsertMulti]
    · have hp := buildLocationQuery_postponed { s with simManager := c.simManager } c.cells
        c.oldQuery c.currDt c.currMSecs hmap hflag
      unfold callResult
      rw [hp.2.2, hp.1, hp.2.1]
      simp [hmap]

theorem run_wait (calls : List Call) : ∀ s : Locator,
    (run s calls).waitForWlanInfo
      = (s.waitForWlanInfo && calls.all (fun c => (cellTowerFields c.cells).isEmpty)) := by
  induction calls with
  | nil => intro s; simp [run]
  | cons c rest ih =>
    intro s
    have h1 := ih (callResult s c).state
    rw [(callResult_wait s c).2.2] at h1
    simp only [run, List.foldl_cons, List.all_cons] at h1 ⊢
    rw [h1, Bool.and_assoc]

theorem runLog_postponing_count (calls : List Call) : ∀ s : Locator,
    (runLog s calls).count LogLine.postponing ≤ (if s.waitForWlanInfo then 1 else 0) := by
  induction calls with
  | nil => intro s; simp [runLog]
  | cons c rest ih =>
    intro s
    have hw := callResult_wait s c
    have hrest := ih (callResult s c).state
    rw [hw.2.2] at hrest
    by_cases hp : (callResult s c).log = LogLine.postponing
    · have hc := hw.1.mp hp
      have he : (cellTowerFields c.cells).isEmpty = false := by
        cases hx : cellTowerFields c.cells with
        | nil => exact absurd hx hc.2
        | cons a b => rfl
      rw [hc.1, he] at hrest
      simp only [runLog, hp, List.count_cons_self, hc.1, if_true]
      simp only [Bool.and_false, Bool.false_eq_true, if_false] at hrest
      omega
    · have hcount : (runLog s (c :: rest)).count LogLine.postponing
          = (runLog (callResult s c).state rest).count LogLine.postponing := by
        simp only [runLog]
        rw [List.count_cons_of_ne (fun h => hp h.symm)]
      rw [hcount]
      cases hf : s.waitForWlanInfo
      · rw [hf] at hrest
        simpa using hrest
      · simp only [if_true]
        refine le_trans hrest ?_
        split_ifs <;> omega

/-- C19 as stated fails: after a first call without any cell data, the second call,
which has a cell payload, is postponed for lack of wireless data. -/
theorem wait_notFirstCall_counterexample :
    (cellTowerFields [exampleCell]).isEmpty = false ∧
    (callResult (run (initial true true TimeString.empty)
        [⟨none, [], noQuery, 1700000000000, 1700000000001⟩])
      ⟨none, [exampleCell], noQuery, 1700000005000, 1700000005001⟩).log
      = LogLine.postponing ∧
    (callResult (run (initial true true TimeString.empty)
        [⟨none, [], noQuery, 1700000000000, 1700000000001⟩])
      ⟨none, [exampleCell], noQuery, 1700000005000, 1700000005001⟩).query.1
      = QDateTime.null := by
  decide

/-- C19, amended: the wait for wireless data applies at most once, to the first call
that has a non-empty cell payload, which need not be the first call of the process:
in any sequence of `buildLocationQuery` calls from the constructor's state, a call is
postponed for lack of wireless data if and only if it has a non-empty cell payload
and none of the earlier calls had one; so a call with a cell payload that comes
after another call with a cell payload is never postponed, and at most one call of
the sequence is. -/
theorem wait_once (lacf ipf : Bool) (k : TimeString) (calls : List Call) (c : Call) :
    ((callResult (run (initial lacf ipf k) calls) c).log = LogLine.postponing ↔
      (cellTowerFields c.cells ≠ [] ∧ ∀ c' ∈ calls, cellTowerFields c'.cells = [])) ∧
    ((∃ c' ∈ calls, cellTowerFields c'.cells ≠ []) →
      (callResult (run (initial lacf ipf k) calls) c).log ≠ LogLine.postponing) ∧
    (runLog (initial lacf ipf k) (calls ++ [c])).count LogLine.postponing ≤ 1 := by
  have hflag : (run (initial lacf ipf k) calls).waitForWlanInfo = true ↔
      ∀ c' ∈ calls, cellTowerFields c'.cells = [] := by
    rw [run_wait]
    simp [initial]
  have hiff : (callResult (run (initial lacf ipf k) calls) c).log = LogLine.postponing ↔
      (cellTowerFields c.cells ≠ [] ∧ ∀ c' ∈ calls, cellTowerFields c'.cells = []) := by
    rw [(callResult_wait _ c).1, hflag]
    exact And.comm
  refine ⟨hiff, ?_, ?_⟩
  · rintro ⟨c', hc', hne⟩ hp
    exact hne ((hiff.mp hp).2 c' hc')
  · have h := runLog_postponing_count (calls ++ [c]) (initial lacf ipf k)
    simpa [initial] using h

/-- Witness of C19: after the call of scenario A that was postponed, the same cells
are not postponed again. -/
theorem wait_once_witness :
    (∃ c' ∈ [(⟨none, [exampleCell], noQuery, 1700000000000, 1700000000001⟩ : Call)],
      cellTowerFields c'.cells ≠ []) ∧
    (callResult (run (initial true true TimeString.empty)
        [⟨none, [exampleCell], noQuery, 1700000000000, 1700000000001⟩])
      ⟨none, [exampleCell], noQuery, 1700000005000, 1700000005001⟩).log
      ≠ LogLine.postponing :=
  ⟨⟨_, List.mem_singleton.mpr rfl, fun h => absurd (congrArg List.isEmpty h) (by decide)⟩,
   (wait_once true true TimeString.empty
      [⟨none, [exampleCell], noQuery, 1700000000000, 1700000000001⟩]
      ⟨none, [exampleCell], noQuery, 1700000005000, 1700000005001⟩).2.1
      ⟨_, List.mem_singleton.mpr rfl,
        fun h => absurd (congrArg List.isEmpty h) (by decide)⟩⟩

/-! ## One signal per resolution -/

/-- C20: every completion that `requestOnlineLocationFinished` handles for the reply
held emits exactly one signal, a locationFound or an error: never both, never
none. -/
theorem finished_one_signal (s : Locator) (current : Reply) (reply : FinishedReply)
    (now : Int) (hcur : s.currentReply = some current) (hid : current.id = reply.id) :
    (requestOnlineLocationFinished s reply now).2.length = 1 ∧
    ((∃ la lo acc, (requestOnlineLocationFinished s reply now).2
        = [Signal.locationFound la lo acc]) ∨
     (∃ msg, (requestOnlineLocationFinished s reply now).2 = [Signal.error msg])) := by
  have hsig : ∃ sig, (requestOnlineLocationFinished s reply now).2 = [sig] := by
    rw [finished_current s current reply now hcur hid]
    cases hto : current.timedOut
    · cases herr : reply.error with
      | some e => exact ⟨_, rfl⟩
      | none =>
        cases hb : malformedBody reply.data
        · obtain ⟨hok, la, lo, acc, hem⟩ := readServerResponseData_wellFormed reply.data "" hb
          exact ⟨Signal.locationFound la lo acc, by simp [hok, hem]⟩
        · obtain ⟨hok, hem⟩ := readServerResponseData_malformed reply.data "" hb
          exact ⟨Signal.error (readServerResponseData reply.data "").errorString,
            by simp [hok, hem]⟩
    · exact ⟨_, rfl⟩
  obtain ⟨sig, hs⟩ := hsig
  rw [hs]
  refine ⟨rfl, ?_⟩
  cases sig with
  | locationFound la lo acc => exact Or.inl ⟨la, lo, acc, rfl⟩
  | error msg => exact Or.inr ⟨msg, rfl⟩

/-- Witness of C20: the request of the example, completed with the success body. -/
theorem finished_one_signal_witness :
    (findLocation (initial true true TimeString.empty)
        ⟨some "key", 1700000000000, 1, false⟩).state.currentReply = some ⟨1, false⟩ ∧
    (requestOnlineLocationFinished
      (findLocation (initial true true TimeString.empty)
        ⟨some "key", 1700000000000, 1, false⟩).state
      ⟨1, none, exampleSuccessBody⟩ 1700000000500).2.length = 1 :=
  ⟨rfl,
   (finished_one_signal
      (findLocation (initial true true TimeString.empty)
        ⟨some "key", 1700000000000, 1, false⟩).state
      ⟨1, false⟩ ⟨1, none, exampleSuccessBody⟩ 1700000000500 rfl rfl).1⟩

/-! ## Writes of the key-failure time -/

theorem checkError_keyFailureTime (s : Locator) (data : ReplyData) (now : Int) :
    (checkError s data now).keyFailureTime =
      match data.json with
      | Except.ok (QJsonDocument.object obj) =>
        if (mapValue (mapValue obj "error").toMap "code").jsonToInt = 400
        then toStringISODate now else s.keyFailureTime
      | _ => s.keyFailureTime := by
  unfold checkError
  cases hj : data.json with
  | error e => rfl
  | ok doc =>
    cases doc with
    | array xs => rfl
    | object obj =>
      simp only []
      split_ifs <;> rfl

theorem findLocation_keyFailureTime (s : Locator) (inp : FindInput) :
    (findLocation s inp).state.keyFailureTime = s.keyFailureTime := by
  unfold findLocation loadYandexKey
  cases hk : inp.keyFile with
  | none => rfl
  | some key =>
    by_cases he : key.isEmpty = true
    · simp [he]
    · cases hc : s.currentReply with
      | some current => simp [he, hc]
      | none =>
        by_cases hr : refusesNewTry s.keyFailureTime inp.now = true <;>
          cases hp : inp.postError <;> simp [he, hc, hr]

theorem timeoutReply_keyFailureTime (s : Locator) :
    (timeoutReply s).keyFailureTime = s.keyFailureTime := by
  unfold timeoutReply
  cases s.currentReply <;> rfl

/-- The stored key-failure time after a completion, case by case. -/
theorem finished_keyFailureTime (s : Locator) (reply : FinishedReply) (now : Int) :
    (keyRejectedCompletion s reply = true →
      (requestOnlineLocationFinished s reply now).1.keyFailureTime = toStringISODate now) ∧
    (keyRejectedCompletion s reply = false →
      (requestOnlineLocationFinished s reply now).1.keyFailureTime = s.keyFailureTime ∨
      (requestOnlineLocationFinished s reply now).1.keyFailureTime = TimeString.empty) := by
  cases hc : s.currentReply with
  | none =>
    have hf := finished_other s reply now
      (fun current hcur => by rw [hc] at hcur; exact Option.noConfusion hcur)
    rw [hf]
    simp [keyRejectedCompletion, hc]
  | some current =>
    by_cases hid : current.id = reply.id
    · rw [finished_current s current reply now hc hid]
      cases hto : current.timedOut
      · cases herr : reply.error with
        | none => simp [keyRejectedCompletion, hc, hid, hto, herr]
        | some e =>
          simp only [Bool.false_eq_true, if_false]
          have hk := checkError_keyFailureTime s reply.data now
          cases hj : reply.data.json with
          | error pe =>
            rw [hj] at hk
            simp [keyRejectedCompletion, hc, hid, hto, herr, hj, hk]
          | ok doc =>
            cases doc with
            | array xs =>
              rw [hj] at hk
              simp [keyRejectedCompletion, hc, hid, hto, herr, hj, hk]
            | object obj =>
              rw [hj] at hk
              by_cases h400 : (mapValue (mapValue obj "error").toMap "code").jsonToInt = 400
              · simp [keyRejectedCompletion, hc, hid, hto, herr, hj, hk, h400]
              · simp [keyRejectedCompletion, hc, hid, hto, herr, hj, hk, h400]
      · simp [keyRejectedCompletion, hc, hid, hto]
    · have hf := finished_other s reply now
        (fun c hcur => by rw [hc] at hcur; cases hcur; exact hid)
      rw [hf]
      simp [keyRejectedCompletion, hc, hid]

theorem keyRejectedCompletion_iff (s : Locator) (reply : FinishedReply) :
    keyRejectedCompletion s reply = true ↔
      ∃ (current : Reply) (e : String) (obj : QVariantMap),
        s.currentReply = some current ∧ current.id = reply.id ∧
        current.timedOut = false ∧ reply.error = some e ∧
        reply.data.json = Except.ok (QJsonDocument.object obj) ∧
        (mapValue (mapValue obj "error").toMap "code").jsonToInt = 400 := by
  unfold keyRejectedCompletion
  constructor
  · intro h
    cases hc : s.currentReply with
    | none => rw [hc] at h; exact absurd h (by simp)
    | some current =>
      rw [hc] at h
      simp only [Bool.and_eq_true, beq_iff_eq, Bool.not_eq_true', Option.isSome_iff_exists]
        at h
      obtain ⟨⟨⟨hid, hto⟩, ⟨e, he⟩⟩, hj⟩ := h
      cases hjson : reply.data.json with
      | error pe => rw [hjson] at hj; exact absurd hj (by simp)
      | ok doc =>
        cases doc with
        | array xs => rw [hjson] at hj; exact absurd hj (by simp)
        | object obj =>
          rw [hjson] at hj
          exact ⟨current, e, obj, rfl, hid, hto, he, rfl, by simpa using hj⟩
  · rintro ⟨current, e, obj, hc, hid, hto, he, hj, h400⟩
    simp [hc, hid, hto, he, hj, h400]

/-- C21: across `findLocation`, `timeoutReply` and `requestOnlineLocationFinished`, the
stored key-failure time is set to a new time stamp only by a completion that is for
the reply held, not timed out by hand, with a transport error and a body that is a
JSON object whose error.code is 400.  `findLocation` (also when it refuses) and
`timeoutReply` leave it as it is; every other completion leaves it as it is or clears
it, and a completion after a manual timeout or with a transport error of another
kind (other code, body not parsable) leaves it as it is. -/
theorem keyFailureTime_writes (s : Locator) (inp : FindInput) (reply : FinishedReply)
    (now : Int) :
    (findLocation s inp).state.keyFailureTime = s.keyFailureTime ∧
    (timeoutReply s).keyFailureTime = s.keyFailureTime ∧
    (keyRejectedCompletion s reply = true →
      (requestOnlineLocationFinished s reply now).1.keyFailureTime = toStringISODate now) ∧
    (keyRejectedCompletion s reply = false →
      (requestOnlineLocationFinished s reply now).1.keyFailureTime = s.keyFailureTime ∨
      (requestOnlineLocationFinished s reply now).1.keyFailureTime = TimeString.empty) ∧
    (keyRejectedCompletion s reply = false →
      ((∃ current, s.currentReply = some current ∧ current.timedOut = true) ∨
        reply.error.isSome = true) →
      (requestOnlineLocationFinished s reply now).1.keyFailureTime = s.keyFailureTime) ∧
    (keyRejectedCompletion s reply = true ↔
      ∃ (current : Reply) (e : String) (obj : QVariantMap),
        s.currentReply = some current ∧ current.id = reply.id ∧
        current.timedOut = false ∧ reply.error = some e ∧
        reply.data.json = Except.ok (QJsonDocument.object obj) ∧
        (mapValue (mapValue obj "error").toMap "code").jsonToInt = 400) := by
  have hfin := finished_keyFailureTime s reply now
  refine ⟨findLocation_keyFailureTime s inp, timeoutReply_keyFailureTime s, hfin.1, hfin.2,
    ?_, keyRejectedCompletion_iff s reply⟩
  intro hk hbranch
  cases hc : s.currentReply with
  | none =>
    rw [finished_other s reply now
      (fun current hcur => by rw [hc] at hcur; exact Option.noConfusion hcur)]
  | some current =>
    by_cases hid : current.id = reply.id
    · rw [finished_current s current reply now hc hid]
      cases hto : current.timedOut
      · have herr : reply.error.isSome = true := by
          rcases hbranch with ⟨c, hc2, hto2⟩ | h
          · rw [hc] at hc2
            cases hc2
            rw [hto] at hto2
            exact Bool.noConfusion hto2
          · exact h
        obtain ⟨e, he⟩ := Option.isSome_iff_exists.mp herr
        simp only [he, Bool.false_eq_true, if_false]
        have hck := checkError_keyFailureTime s reply.data now
        simp only [keyRejectedCompletion, hc, hid, hto, he, beq_self_eq_true, Bool.not_false,
          Option.isSome_some, Bool.and_self, Bool.true_and] at hk
        cases hj : reply.data.json with
        | error pe => rw [hj] at hck; exact hck
        | ok doc =>
          cases doc with
          | array xs => rw [hj] at hck; exact hck
          | object obj =>
            rw [hj] at hck hk
            have h400 : ¬ (mapValue (mapValue obj "error").toMap "code").jsonToInt = 400 := by
              simpa using hk
            simp only [h400, if_false] at hck
            exact hck
      · simp
    · rw [finished_other s reply now
        (fun c hcur => by rw [hc] at hcur; cases hcur; exact hid)]

/-- Witness of C21: the request of the example completes with the transport error
and error.code 403; the stored time stays empty. With error.code 400 it is set. -/
theorem keyFailureTime_writes_witness :
    keyRejectedCompletion
      (findLocation (initial true true TimeString.empty)
        ⟨some "key", 1700000000000, 1, false⟩).state
      ⟨1, some "Forbidden", exampleOtherErrorBody⟩ = false ∧
    (requestOnlineLocationFinished
      (findLocation (initial true true TimeString.empty)
        ⟨some "key", 1700000000000, 1, false⟩).state
      ⟨1, some "Forbidden", exampleOtherErrorBody⟩ 1700000001500).1.keyFailureTime
      = TimeString.empty ∧
    (requestOnlineLocationFinished
      (findLocation (initial true true TimeString.empty)
        ⟨some "key", 1700000000000, 1, false⟩).state
      ⟨1, some "Bad Request", exampleKeyRejectedBody⟩ 1700000001500).1.keyFailureTime
      = TimeString.iso 1700000001000 :=
  ⟨by decide,
   (keyFailureTime_writes
      (findLocation (initial true true TimeString.empty)
        ⟨some "key", 1700000000000, 1, false⟩).state
      ⟨some "key", 1700000000000, 1, false⟩
      ⟨1, some "Forbidden", exampleOtherErrorBody⟩ 1700000001500).2.2.2.2.1
      (by decide) (Or.inr rfl),
   (keyFailureTime_writes
      (findLocation (initial true true TimeString.empty)
        ⟨some "key", 1700000000000, 1, false⟩).state
      ⟨some "key", 1700000000000, 1, false⟩
      ⟨1, some "Bad Request", exampleKeyRejectedBody⟩ 1700000001500).2.2.1 (by decide)⟩

/-! ## The values of the back-off factor -/

theorem updateBackOff_values (f : Nat) (q : ℚ) (h : f ∈ backOffValues) :
    updateBackOff f q ∈ backOffValues := by
  simp only [backOffValues, List.mem_cons, List.mem_singleton, List.not_mem_nil,
    or_false] at h
  unfold updateBackOff
  rcases h with h | h | h | h | h | h | h <;> subst h <;> split_ifs <;>
    simp_all +decide [backOffValues]

theorem run_values (calls : List Call) : ∀ s : Locator, s.backOffFactor ∈ backOffValues →
    (run s calls).backOffFactor ∈ backOffValues := by
  induction calls with
  | nil => intro s h; exact h
  | cons c rest ih =>
    intro s h
    apply ih (callResult s c).state
    unfold callResult
    rcases buildLocationQuery_backOffFactor { s with simManager := c.simManager } c.cells
      c.oldQuery c.currDt c.currMSecs with h1 | h1
    · rw [h1]; exact h
    · rw [h1]; exact updateBackOff_values _ _ h

/-- C22: in every state reached from the constructor's state (factor 8) by calls of
`buildLocationQuery`, the back-off factor is one of 1, 2, 4, 8, 16, 32, 64; so the
guard `backOffFactor > 64` is false there and the update is decided by the rate
alone; and the adaptive interval, once a call has recomputed it, is
60000 + 10000 × factor and lies in [70000, 700000] ms (before that it is 60000). -/
theorem backOffFactor_powerOfTwo (lacf ipf : Bool) (k : TimeString) (calls : List Call) :
    (run (initial lacf ipf k) calls).backOffFactor ∈ backOffValues ∧
    (∃ n : Nat, n ≤ 6 ∧ (run (initial lacf ipf k) calls).backOffFactor = 2 ^ n) ∧
    ¬ ((run (initial lacf ipf k) calls).backOffFactor > 64) ∧
    (∀ q : ℚ, updateBackOff (run (initial lacf ipf k) calls).backOffFactor q =
      if q > 6 then
        (if (run (initial lacf ipf k) calls).backOffFactor ≤ 2 then 1
         else (run (initial lacf ipf k) calls).backOffFactor / 2)
      else if q < 4 then
        (if (run (initial lacf ipf k) calls).backOffFactor ≥ 32 then 64
         else (run (initial lacf ipf k) calls).backOffFactor * 2)
      else (run (initial lacf ipf k) calls).backOffFactor) ∧
    (if (runLog (initial lacf ipf k) calls).any LogLine.updatedBackOff then
      (70000 ≤ (run (initial lacf ipf k) calls).adaptiveInterval ∧
        (run (initial lacf ipf k) calls).adaptiveInterval ≤ 700000)
     else (run (initial lacf ipf k) calls).adaptiveInterval = 60000) := by
  have hv : (run (initial lacf ipf k) calls).backOffFactor ∈ backOffValues :=
    run_values calls (initial lacf ipf k) (by simp [initial, backOffValues])
  have hle : (run (initial lacf ipf k) calls).backOffFactor ≤ 64 := by
    simp only [backOffValues, List.mem_cons, List.mem_singleton, List.not_mem_nil,
      or_false] at hv
    omega
  refine ⟨hv, ?_, by omega, ?_, ?_⟩
  · simp only [backOffValues, List.mem_cons, List.mem_singleton, List.not_mem_nil,
      or_false] at hv
    rcases hv with h | h | h | h | h | h | h
    · exact ⟨0, by omega, by rw [h]; rfl⟩
    · exact ⟨1, by omega, by rw [h]; rfl⟩
    · exact ⟨2, by omega, by rw [h]; rfl⟩
    · exact ⟨3, by omega, by rw [h]; rfl⟩
    · exact ⟨4, by omega, by rw [h]; rfl⟩
    · exact ⟨5, by omega, by rw [h]; rfl⟩
    · exact ⟨6, by omega, by rw [h]; rfl⟩
  · intro q
    unfold updateBackOff
    have hn : ¬ ((run (initial lacf ipf k) calls).backOffFactor > 64) := by omega
    by_cases hq : q > 6
    · simp only [hq, true_or, if_true]
    · simp only [hq, hn, or_self, if_false]
      split_ifs <;> omega
  · have h0 : IntervalInv false (initial lacf ipf k) := by
      simp [IntervalInv, initial, REQUEST_BASE_ADAPTIVE_INTERVAL]
    have h := run_intervalInv calls (initial lacf ipf k) false h0
    simp only [Bool.false_or] at h
    unfold IntervalInv at h
    split_ifs at h ⊢
    · obtain ⟨hi, h1, h2⟩ := h
      constructor <;> omega
    · exact h.1

end YandexOnlineLocator
